import Mathlib

/-!
# Filestore CSI driver: identifier codec, capacity resolver, provisioning controller

A shallow embedding of `pkg/csi_driver/volume_id.go` and `pkg/csi_driver/controller.go`.

Conventions of the embedding.

* A Go `string` is a Lean `String`.  Every string that reaches this code comes out of a protobuf
  `string` field, hence is valid UTF-8; the only separator the code splits on is the one-byte
  character `/`, which never occurs inside a multi-byte UTF-8 sequence, so splitting the sequence
  of characters and splitting the sequence of bytes agree.
* `int64` values are `Int`.  The code only compares them and takes minima and maxima, so no
  arithmetic can overflow.
* A pointer that may be `nil` is an `Option`; a Go result pair `(value, error)` of which the code
  reads the value only when the error is `nil` is an `Except`.
* A `map[string]string` that the code ranges over is the list of its entries in the order in which
  this run visits them.
* Collaborators whose code lives outside the two files (the file service, the metadata service,
  the driver's capability check, the IP allocator, `strings.ToLower`) are fields of the
  `controllerServerConfig` record; every call the controller makes to the remote API or to the
  allocator is recorded in a trace.
-/

set_option autoImplicit false

namespace driver

/-! ## Go library functions -/

namespace strings

/-- Go `strings.Split(s, sep)` for a one-character separator: the substrings between the
occurrences of `sep`; the result always has at least one element. -/
def Split (s : String) (sep : Char) : List String :=
  (s.toList.splitOn sep).map String.mk

/-- Go `strings.Join(elems, sep)` for a one-character separator. -/
def Join (elems : List String) (sep : Char) : String :=
  String.mk ([sep].intercalate (elems.map String.toList))

end strings

/-! ## Errors -/

deriving instance DecidableEq for Except

/-- The gRPC status codes (`google.golang.org/grpc/codes`). -/
inductive Code where
  | OK | Canceled | Unknown | InvalidArgument | DeadlineExceeded | NotFound | AlreadyExists
  | PermissionDenied | ResourceExhausted | FailedPrecondition | Aborted | OutOfRange
  | Unimplemented | Internal | Unavailable | DataLoss | Unauthenticated
  deriving DecidableEq, Repr

/-- A Go `error` value, observed through its gRPC status code (`Unknown` for an error that is not
a status) and its message text (what `err.Error()` gives for a plain error, the description for a
status). -/
structure GoError where
  code : Code
  msg : String
  deriving DecidableEq, Repr

namespace status

/-- The call `status.Error(c, msg)`. -/
def Error (c : Code) (msg : String) : GoError := ⟨c, msg⟩

end status

namespace fmt

/-- The verb `%q` applied to a string: the string in double quotes (escape sequences inside it are
not rendered; no statement below reads a message text). -/
def quote (s : String) : String := "\"" ++ s ++ "\""

/-- The call `fmt.Errorf` with its message already assembled: a plain error. -/
def Errorf (text : String) : GoError := ⟨Code.Unknown, text⟩

end fmt

/-! ## Data model (`pkg/cloud_provider/file`, fields read or written by the controller) -/

namespace file

/-- The Go struct `file.Volume`. -/
structure Volume where
  Name : String := ""
  SizeBytes : Int := 0
  deriving DecidableEq, Repr

/-- The Go struct `file.Network`. -/
structure Network where
  Name : String := ""
  ReservedIpRange : String := ""
  Ip : String := ""
  deriving DecidableEq, Repr

/-- The Go struct `file.ServiceInstance`. -/
structure ServiceInstance where
  Project : String := ""
  Name : String := ""
  Location : String := ""
  Tier : String := ""
  Network : Network := {}
  Volume : Volume := {}
  deriving DecidableEq, Repr

end file

/-! ## `volume_id.go` -/

/-- Position of the provisioning mode in a volume id. -/
def idProvisioningMode : Nat := 0
/-- Position of the location in a volume id. -/
def idLocation : Nat := 1
/-- Position of the instance name in a volume id. -/
def idInstance : Nat := 2
/-- Position of the volume name in a volume id. -/
def idVolume : Nat := 3
/-- Number of elements of a volume id. -/
def totalIDElements : Nat := 4

/-- Source `getVolumeIDFromFileInstance`: the id
`provisioningMode/location/instanceName/volume` of an instance. -/
def getVolumeIDFromFileInstance (obj : file.ServiceInstance) (mode : String) : String :=
  let idElements := List.replicate totalIDElements ""
  let idElements := idElements.set idProvisioningMode mode
  let idElements := idElements.set idLocation obj.Location
  let idElements := idElements.set idInstance obj.Name
  let idElements := idElements.set idVolume obj.Volume.Name
  strings.Join idElements '/'

/-- Source `getFileInstanceFromID`: the instance and the provisioning mode named by a volume id,
or an error when the id does not have `totalIDElements` tokens.  The indexings are in range
because of the length test, so the default of `getD` is never used. -/
def getFileInstanceFromID (id : String) : Except GoError (file.ServiceInstance × String) :=
  let tokens := strings.Split id '/'
  if tokens.length ≠ totalIDElements then
    .error (fmt.Errorf ("volume id " ++ fmt.quote id ++ " unexpected format: got " ++
      toString tokens.length ++ " tokens"))
  else
    .ok ({ Location := tokens.getD idLocation "",
           Name := tokens.getD idInstance "",
           Volume := { Name := tokens.getD idVolume "" } },
         tokens.getD idProvisioningMode "")

/-! ## `controller.go`: constants and request types -/

namespace util

/-- Modelled from the spec: the constant `util.Gb` is declared in `pkg/util`, outside the two
files; the binary gigabyte is taken. -/
def Gb : Int := 1024 * 1024 * 1024

/-- Modelled from the spec: the constant `util.Tb` is declared in `pkg/util`, outside the two
files; the spec only names it as the unit of the capacity floor, and the binary terabyte is
taken. -/
def Tb : Int := 1024 * Gb

/-- Modelled from the spec: `util.Min` is declared in `pkg/util`; the spec uses it as the upper
cap of the clamp, the smaller of two `int64` values. -/
def Min (a b : Int) : Int := min a b

/-- Modelled from the spec: `util.Max` is declared in `pkg/util`; the spec uses it to raise a
value to the floor, the larger of two `int64` values. -/
def Max (a b : Int) : Int := max a b

end util

/-- Source constant `minVolumeSize`. -/
def minVolumeSize : Int := 1 * util.Tb
/-- Source constant `modeInstance`. -/
def modeInstance : String := "modeInstance"
/-- Source constant `newInstanceVolume`. -/
def newInstanceVolume : String := "vol1"
/-- Source constant `defaultTier`. -/
def defaultTier : String := "standard"
/-- Source constant `defaultNetwork`. -/
def defaultNetwork : String := "default"
/-- Source constant `attrIP`. -/
def attrIP : String := "ip"
/-- Source constant `attrVolume`. -/
def attrVolume : String := "volume"
/-- Source constant `paramTier`. -/
def paramTier : String := "tier"
/-- Source constant `paramLocation`. -/
def paramLocation : String := "location"
/-- Source constant `paramNetwork`. -/
def paramNetwork : String := "network"
/-- Source constant `paramReservedIPV4CIDR`. -/
def paramReservedIPV4CIDR : String := "reserved-ipv4-cidr"

namespace csi

/-- The CSI message `CapacityRange`; an unset field reads as 0. -/
structure CapacityRange where
  RequiredBytes : Int := 0
  LimitBytes : Int := 0
  deriving DecidableEq, Repr

/-- The CSI message `Volume`. -/
structure Volume where
  Id : String
  CapacityBytes : Int
  Attributes : List (String × String)
  deriving DecidableEq, Repr

/-- The CSI message `CreateVolumeRequest`; `Cap` is the type of a volume capability, which the
controller only hands to the driver's capability check. -/
structure CreateVolumeRequest (Cap : Type) where
  Name : String
  CapacityRange : Option CapacityRange
  VolumeCapabilities : List Cap
  Parameters : List (String × String)

/-- The CSI message `CreateVolumeResponse`. -/
structure CreateVolumeResponse where
  Volume : Volume
  deriving DecidableEq, Repr

/-- The CSI message `DeleteVolumeRequest`. -/
structure DeleteVolumeRequest where
  VolumeId : String
  deriving DecidableEq, Repr

/-- The CSI message `DeleteVolumeResponse`, which has no field. -/
structure DeleteVolumeResponse where
  deriving DecidableEq, Repr

/-- The CSI message `ValidateVolumeCapabilitiesRequest`. -/
structure ValidateVolumeCapabilitiesRequest (Cap : Type) where
  VolumeId : String
  VolumeCapabilities : List Cap

/-- The CSI message `ValidateVolumeCapabilitiesResponse`; an unset field reads as its zero
value. -/
structure ValidateVolumeCapabilitiesResponse where
  Supported : Bool := false
  Message : String := ""
  deriving DecidableEq, Repr

end csi

/-- The collaborators of the controller (source `controllerServerConfig`, with the package-level
functions of `pkg/cloud_provider/file` and `strings.ToLower` it uses).  `Cap` is the type of a
volume capability and `σ` the state of the IP allocator.  Within one request the controller
calls each remote operation at most once, so a remote operation is a function from its argument
to its answer. -/
structure controllerServerConfig (Cap σ : Type) where
  /-- The method `driver.validateVolumeCapabilities`: `none` when the capabilities are supported. -/
  validateVolumeCapabilities : List Cap → Option GoError
  /-- The method `fileService.GetInstance`, with both components of its Go result. -/
  GetInstance : file.ServiceInstance → Option file.ServiceInstance × Option GoError
  /-- The method `fileService.ListInstances`. -/
  ListInstances : file.ServiceInstance → Except GoError (List file.ServiceInstance)
  /-- The method `fileService.CreateInstance`. -/
  CreateInstance : file.ServiceInstance → Except GoError file.ServiceInstance
  /-- The method `fileService.DeleteInstance`: `none` when the deletion succeeded. -/
  DeleteInstance : file.ServiceInstance → Option GoError
  /-- The function `file.IsNotFoundErr`. -/
  IsNotFoundErr : GoError → Bool
  /-- The function `file.CompareInstances`: `none` when the two instances match. -/
  CompareInstances : file.ServiceInstance → file.ServiceInstance → Option GoError
  /-- The method `metaService.GetProject`. -/
  GetProject : String
  /-- The method `metaService.GetZone`. -/
  GetZone : String
  /-- The method `ipAllocator.GetUnreservedIPRange` on a pool and the set of ranges reserved by
  cloud instances, with the allocator state before and after. -/
  GetUnreservedIPRange : σ → String → List String → Except GoError String × σ
  /-- The method `ipAllocator.ReleaseIPRange`. -/
  ReleaseIPRange : σ → String → σ
  /-- The Go library function `strings.ToLower`. -/
  ToLower : String → String

/-- A call made to the remote API or to the IP allocator, with its arguments. -/
inductive Call where
  | GetInstance (obj : file.ServiceInstance)
  | ListInstances (obj : file.ServiceInstance)
  | CreateInstance (obj : file.ServiceInstance)
  | DeleteInstance (obj : file.ServiceInstance)
  | GetUnreservedIPRange (cidr : String) (cloudInstancesReservedIPRanges : List String)
  | ReleaseIPRange (ipRange : String)
  deriving DecidableEq, Repr

/-- What a controller method leaves behind: its Go result, the allocator state, and the calls it
made, in order. -/
structure Outcome (σ α : Type) where
  result : Except GoError α
  alloc : σ
  calls : List Call

/-! ## `controller.go`: functions -/

section controller

variable {Cap σ : Type}

/-- Source `getRequestCapacity`: the volume size that should be provisioned. -/
def getRequestCapacity (capRange : Option csi.CapacityRange) : Int :=
  match capRange with
  | none => minVolumeSize
  | some capRange =>
    let rCap := capRange.RequiredBytes
    let lCap := capRange.LimitBytes
    if lCap > 0 then
      if rCap = 0 then
        -- request not set
        lCap
      else
        -- request set, round up to min
        util.Min (util.Max rCap minVolumeSize) lCap
    else
      -- limit not set
      util.Max rCap minVolumeSize

/-- The `for k, v := range params` loop of `generateNewFileInstance` with its `switch` on the
lower-cased key, over the entries in visiting order; the state is the triple of local variables
`tier`, `network`, `location`, and an unrecognised key returns early with an error. -/
def generateNewFileInstance.loop (s : controllerServerConfig Cap σ) :
    List (String × String) → String → String → String → Except GoError (String × String × String)
  | [], tier, network, location => .ok (tier, network, location)
  | (k, v) :: rest, tier, network, location =>
    let key := s.ToLower k
    if key = paramTier then
      generateNewFileInstance.loop s rest v network location
    else if key = paramLocation then
      generateNewFileInstance.loop s rest tier network v
    else if key = paramNetwork then
      generateNewFileInstance.loop s rest tier v location
    else if key = paramReservedIPV4CIDR then
      generateNewFileInstance.loop s rest tier network location
    else if key = "csiprovisionersecretname" ∨ key = "csiprovisionersecretnamespace" then
      generateNewFileInstance.loop s rest tier network location
    else
      .error (fmt.Errorf ("invalid parameter " ++ fmt.quote k))

/-- Source `generateNewFileInstance`: the instance described by the CreateVolume parameters. -/
def generateNewFileInstance (s : controllerServerConfig Cap σ) (name : String) (capBytes : Int)
    (params : List (String × String)) : Except GoError file.ServiceInstance :=
  -- Set default parameters
  let tier := defaultTier
  let network := defaultNetwork
  let location := s.GetZone
  match generateNewFileInstance.loop s params tier network location with
  | .error err => .error err
  | .ok (tier, network, location) =>
    .ok { Project := s.GetProject,
          Name := name,
          Location := location,
          Tier := tier,
          Network := { Name := network },
          Volume := { Name := newInstanceVolume, SizeBytes := capBytes } }

/-- Source `fileInstanceToCSIVolume`: the CSI volume of a cloud instance. -/
def fileInstanceToCSIVolume (inst : file.ServiceInstance) (mode : String) : csi.Volume :=
  { Id := getVolumeIDFromFileInstance inst mode,
    CapacityBytes := inst.Volume.SizeBytes,
    Attributes := [(attrIP, inst.Network.Ip), (attrVolume, inst.Volume.Name)] }

/-- Source `getCloudInstancesReservedIPRanges`: the set of reserved ranges of the listed
instances (the keys of the Go map, each once), or the `Aborted` status when listing fails. -/
def getCloudInstancesReservedIPRanges (s : controllerServerConfig Cap σ)
    (filer : file.ServiceInstance) : Except GoError (List String) × List Call :=
  match s.ListInstances filer with
  | .error err => (.error (status.Error Code.Aborted err.msg), [Call.ListInstances filer])
  | .ok instances =>
    let cloudInstancesReservedIPRanges :=
      instances.foldl (fun m inst => List.insert inst.Network.ReservedIpRange m) []
    (.ok cloudInstancesReservedIPRanges, [Call.ListInstances filer])

/-- Source `reserveIPRange`: an available range of the cidr.  The Go result pair is kept whole
(the string is empty when there is an error) because the caller reads the string before it
tests the error. -/
def reserveIPRange (s : controllerServerConfig Cap σ) (st : σ) (filer : file.ServiceInstance)
    (cidr : String) : (String × Option GoError) × σ × List Call :=
  match getCloudInstancesReservedIPRanges s filer with
  | (.error err, calls) => (("", some err), st, calls)
  | (.ok cloudInstancesReservedIPRanges, calls) =>
    match s.GetUnreservedIPRange st cidr cloudInstancesReservedIPRanges with
    | (.error err, st1) =>
      (("", some err), st1, calls ++ [Call.GetUnreservedIPRange cidr cloudInstancesReservedIPRanges])
    | (.ok unreservedIPBlock, st1) =>
      ((unreservedIPBlock, none), st1,
        calls ++ [Call.GetUnreservedIPRange cidr cloudInstancesReservedIPRanges])

/-- The tail of `CreateVolume` from the comment `Create the instance` on: the call of
`CreateInstance` and the response. -/
def CreateVolume.create (s : controllerServerConfig Cap σ) (newFiler : file.ServiceInstance) :
    Except GoError csi.CreateVolumeResponse × List Call :=
  match s.CreateInstance newFiler with
  | .error err => (.error (status.Error Code.Internal err.msg), [Call.CreateInstance newFiler])
  | .ok filer =>
    (.ok { Volume := fileInstanceToCSIVolume filer modeInstance }, [Call.CreateInstance newFiler])

/-- Source `controllerServer.CreateVolume`, run from allocator state `st`. -/
def CreateVolume (s : controllerServerConfig Cap σ) (st : σ) (req : csi.CreateVolumeRequest Cap) :
    Outcome σ csi.CreateVolumeResponse :=
  -- Validate arguments (`len(name) == 0` counts bytes; no bytes means no characters)
  let name := req.Name
  if name.length = 0 then
    ⟨.error (status.Error Code.InvalidArgument "CreateVolume name must be provided"), st, []⟩
  else
  match s.validateVolumeCapabilities req.VolumeCapabilities with
  | some err => ⟨.error (status.Error Code.InvalidArgument err.msg), st, []⟩
  | none =>
  let capBytes := getRequestCapacity req.CapacityRange
  match generateNewFileInstance s name capBytes req.Parameters with
  | .error err => ⟨.error (status.Error Code.InvalidArgument err.msg), st, []⟩
  | .ok newFiler =>
  -- Check if the instance already exists
  let (filer, err) := s.GetInstance newFiler
  -- the error, when `err != nil && !file.IsNotFoundErr(err)`
  match err.filter (fun err => !s.IsNotFoundErr err) with
  | some err => ⟨.error (status.Error Code.Internal err.msg), st, [Call.GetInstance newFiler]⟩
  | none =>
  match filer with
  | some filer =>
    -- Instance already exists, check if it meets the request
    match s.CompareInstances newFiler filer with
    | some err => ⟨.error (status.Error Code.AlreadyExists err.msg), st, [Call.GetInstance newFiler]⟩
    | none =>
      ⟨.ok { Volume := fileInstanceToCSIVolume filer modeInstance }, st, [Call.GetInstance newFiler]⟩
  | none =>
    -- the map access `req.GetParameters()[paramReservedIPV4CIDR]`: the key is compared as it is
    -- written (the keys of a Go map are pairwise distinct, so at most one entry has it)
    match req.Parameters.lookup paramReservedIPV4CIDR with
    | some reservedIPV4CIDR =>
      let ((reservedIPRange, err), st1, calls) := reserveIPRange s st newFiler reservedIPV4CIDR
      -- the statements after `defer`, up to the return
      let rest : Except GoError csi.CreateVolumeResponse × List Call :=
        match err with
        | some err => (.error err, [])
        | none =>
          -- Adding the reserved IP range to the instance object
          let newFiler :=
            { newFiler with Network := { newFiler.Network with ReservedIpRange := reservedIPRange } }
          CreateVolume.create s newFiler
      -- the deferred `ReleaseIPRange(reservedIPRange)` runs as the function returns
      ⟨rest.1, s.ReleaseIPRange st1 reservedIPRange,
        [Call.GetInstance newFiler] ++ calls ++ rest.2 ++ [Call.ReleaseIPRange reservedIPRange]⟩
    | none =>
      let rest := CreateVolume.create s newFiler
      ⟨rest.1, st, [Call.GetInstance newFiler] ++ rest.2⟩

/-- Source `controllerServer.DeleteVolume`: its Go result and the calls it made. -/
def DeleteVolume (s : controllerServerConfig Cap σ) (req : csi.DeleteVolumeRequest) :
    Except GoError csi.DeleteVolumeResponse × List Call :=
  let volumeID := req.VolumeId
  if volumeID = "" then
    (.error (status.Error Code.InvalidArgument "volume id is empty"), [])
  else
  match getFileInstanceFromID volumeID with
  | .error _ =>
    -- An invalid ID should be treated as does not exist
    (.ok {}, [])
  | .ok (filer, _) =>
    let filer := { filer with Project := s.GetProject }
    match s.DeleteInstance filer with
    | some err => (.error (status.Error Code.Internal err.msg), [Call.DeleteInstance filer])
    | none => (.ok {}, [Call.DeleteInstance filer])

/-- Source `controllerServer.ValidateVolumeCapabilities`: both components of its Go result (the
method can return a response together with an error) and the calls it made. -/
def ValidateVolumeCapabilities (s : controllerServerConfig Cap σ)
    (req : csi.ValidateVolumeCapabilitiesRequest Cap) :
    (Option csi.ValidateVolumeCapabilitiesResponse × Option GoError) × List Call :=
  -- Validate arguments
  let volumeID := req.VolumeId
  if volumeID = "" then
    ((none, some (status.Error Code.InvalidArgument "volume id is empty")), [])
  else
  let caps := req.VolumeCapabilities
  if caps.length = 0 then
    ((none, some (status.Error Code.InvalidArgument "volume capabilities is empty")), [])
  else
  -- Check that the volume exists
  match getFileInstanceFromID volumeID with
  | .error err =>
    -- An invalid id format is treated as does not exist
    ((none, some (status.Error Code.NotFound err.msg)), [])
  | .ok (filer, _) =>
    let filer := { filer with Project := s.GetProject }
    let (newFiler, err) := s.GetInstance filer
    -- the error, when `err != nil && !file.IsNotFoundErr(err)`
    match err.filter (fun err => !s.IsNotFoundErr err) with
    | some err => ((none, some (status.Error Code.Internal err.msg)), [Call.GetInstance filer])
    | none =>
    match newFiler with
    | none =>
      ((none, some (status.Error Code.NotFound ("volume " ++ volumeID ++ " doesn\x27t exist"))),
        [Call.GetInstance filer])
    | some _ =>
      -- Validate that the volume matches the capabilities
      match s.validateVolumeCapabilities caps with
      | some err =>
        ((some { Supported := false, Message := err.msg },
          some (status.Error Code.InvalidArgument err.msg)), [Call.GetInstance filer])
      | none => ((some { Supported := true }, none), [Call.GetInstance filer])

end controller

/-! ## A concrete configuration, for evaluating the controller on explicit requests -/

/-- Lower-casing of the ASCII letters, which is what `strings.ToLower` does on an ASCII string. -/
def asciiToLower (k : String) : String := String.mk (k.toList.map Char.toLower)

/-- A configuration in which no instance exists yet, every capability is supported, creation
returns the instance it is given, and the allocator (whose state is the list of ranges it holds)
hands out the one range `192.168.92.32/29` when that range is neither reserved nor held. -/
def sampleConfig : controllerServerConfig Unit (List String) where
  validateVolumeCapabilities := fun _ => none
  GetInstance := fun _ => (none, none)
  ListInstances := fun _ => .ok []
  CreateInstance := fun obj => .ok obj
  DeleteInstance := fun _ => none
  IsNotFoundErr := fun err => decide (err.code = Code.NotFound)
  CompareInstances := fun a b =>
    if a.Tier = b.Tier ∧ a.Network.Name = b.Network.Name ∧ a.Location = b.Location ∧
        a.Volume.SizeBytes = b.Volume.SizeBytes then none
    else some (fmt.Errorf "instance mismatch")
  GetProject := "test-project"
  GetZone := "us-central1-a"
  GetUnreservedIPRange := fun st _ reserved =>
    if "192.168.92.32/29" ∈ reserved ∨ "192.168.92.32/29" ∈ st then
      (.error (fmt.Errorf "all of the /29 IPRanges in the cidr are reserved"), st)
    else (.ok "192.168.92.32/29", "192.168.92.32/29" :: st)
  ReleaseIPRange := fun st ipRange => st.erase ipRange
  ToLower := asciiToLower

/-- A request for the volume `vol-a` with the given parameters and no capacity range. -/
def sampleRequest (params : List (String × String)) : csi.CreateVolumeRequest Unit :=
  { Name := "vol-a", CapacityRange := none, VolumeCapabilities := [()], Parameters := params }

/-- The instance that `sampleRequest` describes under `sampleConfig` when its parameters set
neither tier, network nor location. -/
def sampleFiler : file.ServiceInstance :=
  { Project := "test-project", Name := "vol-a", Location := "us-central1-a", Tier := "standard",
    Network := { Name := "default" }, Volume := { Name := "vol1", SizeBytes := minVolumeSize } }

/-! ## Facts about splitting and joining -/

/-- Splitting a list at `x` gives one more piece than `x` has occurrences. -/
theorem length_splitOn (x : Char) (l : List Char) : (l.splitOn x).length = l.count x + 1 := by
  induction l with
  | nil => simp
  | cons c cs ih =>
    simp only [List.splitOn] at ih ⊢
    rw [List.splitOnP_cons]
    by_cases h : c = x
    · subst h; simp [ih]
    · have h2 : (c == x) = false := by simpa using h
      simp [h2, ih, List.count_cons, h]

/-- The number of tokens of a string is the number of its separators plus one. -/
theorem strings.length_Split (s : String) (sep : Char) :
    (strings.Split s sep).length = s.toList.count sep + 1 := by
  simp [strings.Split, length_splitOn]

/-- Splitting a joined list gives the list back when no element contains the separator. -/
theorem strings.Split_Join (elems : List String) (h : ∀ e ∈ elems, '/' ∉ e.toList)
    (hne : elems ≠ []) : strings.Split (strings.Join elems '/') '/' = elems := by
  unfold strings.Split strings.Join
  simp only [String.toList]
  rw [List.splitOn_intercalate]
  · simp [List.map_map, Function.comp_def]
  · intro l hl
    simp only [List.mem_map] at hl
    obtain ⟨e, he, rfl⟩ := hl
    exact h e he
  · simpa using hne

/-- Joining the tokens of a string gives the string back. -/
theorem strings.Join_Split (s : String) : strings.Join (strings.Split s '/') '/' = s := by
  unfold strings.Split strings.Join
  simp only [List.map_map, Function.comp_def, String.toList]
  simp [List.intercalate_splitOn]

/-- The id of an instance is the join of its four elements, in the order of the constants. -/
theorem getVolumeIDFromFileInstance_eq (obj : file.ServiceInstance) (mode : String) :
    getVolumeIDFromFileInstance obj mode =
      strings.Join [mode, obj.Location, obj.Name, obj.Volume.Name] '/' := rfl

/-- Decoding an id with exactly four tokens returns them, in order. -/
theorem getFileInstanceFromID_of_tokens (id mode location name volume : String)
    (h : strings.Split id '/' = [mode, location, name, volume]) :
    getFileInstanceFromID id =
      .ok ({ Location := location, Name := name, Volume := { Name := volume } }, mode) := by
  simp [getFileInstanceFromID, h, totalIDElements, idLocation, idInstance, idVolume,
    idProvisioningMode]

/-! ## Identifier codec -/

/-- C1 (counterexample): for the identity with mode `modeInstance`, location `us/central1`, name
`vol-a` and volume `vol1`, whose four fields are non-empty, decoding the encoded id fails. -/
theorem C1_roundtrip_fails_on_slash :
    modeInstance ≠ "" ∧ "us/central1" ≠ "" ∧ "vol-a" ≠ "" ∧ "vol1" ≠ "" ∧
    getVolumeIDFromFileInstance
        { Location := "us/central1", Name := "vol-a", Volume := { Name := "vol1" } } modeInstance
      = "modeInstance/us/central1/vol-a/vol1" ∧
    (getFileInstanceFromID (getVolumeIDFromFileInstance
        { Location := "us/central1", Name := "vol-a", Volume := { Name := "vol1" } } modeInstance)
      ).toOption = none := by
  decide

/-- C1 (amended): for every identity whose four fields (mode, location, instance name, volume
name) are non-empty and contain no `/`, decoding the encoded id succeeds and returns the same
mode, location, instance name and volume name. -/
theorem C1_roundtrip (obj : file.ServiceInstance) (mode : String)
    (_hmode : mode ≠ "") (_hloc : obj.Location ≠ "") (_hname : obj.Name ≠ "")
    (_hvol : obj.Volume.Name ≠ "")
    (smode : '/' ∉ mode.toList) (sloc : '/' ∉ obj.Location.toList)
    (sname : '/' ∉ obj.Name.toList) (svol : '/' ∉ obj.Volume.Name.toList) :
    getFileInstanceFromID (getVolumeIDFromFileInstance obj mode) =
      .ok ({ Location := obj.Location, Name := obj.Name, Volume := { Name := obj.Volume.Name } },
           mode) := by
  apply getFileInstanceFromID_of_tokens
  rw [getVolumeIDFromFileInstance_eq]
  apply strings.Split_Join
  · intro e he
    simp only [List.mem_cons, List.mem_singleton, List.not_mem_nil, or_false] at he
    rcases he with rfl | rfl | rfl | rfl <;> assumption
  · simp

/-- C1 (witness): the identity `modeInstance/us-central1-a/vol-a/vol1` round-trips. -/
theorem C1_roundtrip_witness :
    getFileInstanceFromID (getVolumeIDFromFileInstance
        { Location := "us-central1-a", Name := "vol-a", Volume := { Name := "vol1" } } modeInstance)
      = .ok ({ Location := "us-central1-a", Name := "vol-a", Volume := { Name := "vol1" } },
             modeInstance) :=
  C1_roundtrip { Location := "us-central1-a", Name := "vol-a", Volume := { Name := "vol1" } }
    modeInstance (by decide) (by decide) (by decide) (by decide)
    (by decide) (by decide) (by decide) (by decide)

/-- C2: decoding an id returns an error exactly when splitting it on `/` does not give 4 tokens,
that is when the id does not contain exactly three `/`; when it succeeds, the mode, location,
instance name and volume name it returns are the four tokens, unchanged and in order, empty
tokens included; the id `///` decodes to four empty fields. -/
theorem C2_decode_arity (id : String) :
    ((∃ err, getFileInstanceFromID id = .error err) ↔ (strings.Split id '/').length ≠ 4) ∧
    ((strings.Split id '/').length ≠ 4 ↔ id.toList.count '/' ≠ 3) ∧
    (∀ obj mode, getFileInstanceFromID id = .ok (obj, mode) →
      strings.Split id '/' = [mode, obj.Location, obj.Name, obj.Volume.Name]) ∧
    getFileInstanceFromID "///" =
      .ok ({ Location := "", Name := "", Volume := { Name := "" } }, "") := by
  refine ⟨?_, ?_, ?_, by decide⟩
  · by_cases h : (strings.Split id '/').length = 4
    · simp [getFileInstanceFromID, h, totalIDElements]
    · simp [getFileInstanceFromID, h, totalIDElements]
  · rw [strings.length_Split]; omega
  · intro obj mode hok
    by_cases h : (strings.Split id '/').length = 4
    · match hs : strings.Split id '/', h with
      | [a, b, c, d], _ =>
        rw [getFileInstanceFromID_of_tokens id a b c d hs] at hok
        simp only [Except.ok.injEq, Prod.mk.injEq] at hok
        obtain ⟨rfl, rfl⟩ := hok
        rfl
    · simp [getFileInstanceFromID, h, totalIDElements] at hok

/-- C2 (witness): the id `modeInstance/us-central1-a/vol-a/vol1` decodes, and its tokens are the
returned fields. -/
theorem C2_decode_arity_witness :
    getFileInstanceFromID "modeInstance/us-central1-a/vol-a/vol1" =
      .ok ({ Location := "us-central1-a", Name := "vol-a", Volume := { Name := "vol1" } },
           "modeInstance") ∧
    strings.Split "modeInstance/us-central1-a/vol-a/vol1" '/' =
      ["modeInstance", "us-central1-a", "vol-a", "vol1"] :=
  ⟨by decide, (C2_decode_arity "modeInstance/us-central1-a/vol-a/vol1").2.2.1
    { Location := "us-central1-a", Name := "vol-a", Volume := { Name := "vol1" } }
    "modeInstance" (by decide)⟩

/-! ## Capacity resolver -/

/-- C5 (counterexample): with required bytes 0 and limit bytes 2 Tb (a positive limit), the
capacity is the limit, 2 Tb, whereas clamping 0 between the floor and the limit gives 1 Tb. -/
theorem C5_clamp_fails_when_required_unset :
    (2 * util.Tb > 0) ∧
    getRequestCapacity (some { RequiredBytes := 0, LimitBytes := 2 * util.Tb }) = 2 * util.Tb ∧
    min (max 0 minVolumeSize) (2 * util.Tb) = util.Tb ∧
    getRequestCapacity (some { RequiredBytes := 0, LimitBytes := 2 * util.Tb }) ≠
      min (max 0 minVolumeSize) (2 * util.Tb) := by
  decide

/-- C5 (amended): for every required-bytes value `r` and every limit-bytes value `l > 0`,
provided `r` is not 0 or `l` does not exceed the floor, the capacity is `min (max r floor) l`
with `floor = minVolumeSize`. -/
theorem C5_clamp (r l : Int) (hl : l > 0) (h : r ≠ 0 ∨ l ≤ minVolumeSize) :
    getRequestCapacity (some { RequiredBytes := r, LimitBytes := l }) =
      min (max r minVolumeSize) l := by
  have hfloor : (0 : Int) ≤ minVolumeSize := by decide
  by_cases hr : r = 0
  · subst hr
    have hle : l ≤ minVolumeSize := h.resolve_left (fun hne => hne rfl)
    simp [getRequestCapacity, hl, max_eq_right hfloor, min_eq_right hle]
  · simp [getRequestCapacity, hr, hl, util.Min, util.Max]

/-- C5 (witness): the boundary values `r < floor < l`, `floor < r < l` and `r > l`, and an unset
requirement with a limit below the floor. -/
theorem C5_clamp_witness :
    getRequestCapacity (some { RequiredBytes := 5, LimitBytes := 2 * util.Tb }) = util.Tb ∧
    getRequestCapacity (some { RequiredBytes := 2 * util.Tb, LimitBytes := 3 * util.Tb }) =
      2 * util.Tb ∧
    getRequestCapacity (some { RequiredBytes := 3 * util.Tb, LimitBytes := 2 * util.Tb }) =
      2 * util.Tb ∧
    getRequestCapacity (some { RequiredBytes := 0, LimitBytes := 7 }) = 7 :=
  ⟨(C5_clamp 5 (2 * util.Tb) (by decide) (Or.inl (by decide))).trans (by decide),
   (C5_clamp (2 * util.Tb) (3 * util.Tb) (by decide) (Or.inl (by decide))).trans (by decide),
   (C5_clamp (3 * util.Tb) (2 * util.Tb) (by decide) (Or.inl (by decide))).trans (by decide),
   (C5_clamp 0 7 (by decide) (Or.inr (by decide))).trans (by decide)⟩

/-- C6: for every capacity range with limit bytes `l > 0` and required bytes unset (0), the
capacity is exactly `l`, whether or not `l` is below the floor. -/
theorem C6_limit_without_minimum (l : Int) (hl : l > 0) :
    getRequestCapacity (some { RequiredBytes := 0, LimitBytes := l }) = l := by
  simp [getRequestCapacity, hl]

/-- C6 (witness): a limit of one byte, far below the floor, is returned as it is. -/
theorem C6_limit_without_minimum_witness :
    (1 : Int) < minVolumeSize ∧
    getRequestCapacity (some { RequiredBytes := 0, LimitBytes := 1 }) = 1 :=
  ⟨by decide, C6_limit_without_minimum 1 (by decide)⟩

/-- C7: for every capacity range whose limit bytes is unset (0), the capacity is
`max required floor` with `floor = minVolumeSize`; for an absent range it is the floor. -/
theorem C7_no_limit (r : Int) :
    getRequestCapacity (some { RequiredBytes := r, LimitBytes := 0 }) = max r minVolumeSize ∧
    getRequestCapacity none = minVolumeSize := by
  simp [getRequestCapacity, util.Max]

variable {Cap σ : Type}

/-! ## DeleteVolume -/

/-- C4 (counterexample): the empty volume id does not decode, yet `DeleteVolume` answers it with
the `InvalidArgument` error, not with success. -/
theorem C4_delete_rejects_empty_id :
    (getFileInstanceFromID "").toOption = none ∧
    DeleteVolume sampleConfig { VolumeId := "" } =
      (.error (status.Error Code.InvalidArgument "volume id is empty"), []) := by
  decide

/-- C4 (amended): for every non-empty volume id for which decoding fails, `DeleteVolume` returns
success (an empty response and no error) and makes no call to the remote API; for the empty id,
which does not decode either, it returns the `InvalidArgument` error, again without a call. -/
theorem C4_delete_undecodable (s : controllerServerConfig Cap σ) (id : String)
    (hdec : ∃ err, getFileInstanceFromID id = .error err) :
    (id ≠ "" → DeleteVolume s { VolumeId := id } = (.ok {}, [])) ∧
    (id = "" → DeleteVolume s { VolumeId := id } =
      (.error (status.Error Code.InvalidArgument "volume id is empty"), [])) := by
  obtain ⟨err, herr⟩ := hdec
  constructor
  · intro hne
    simp [DeleteVolume, hne, herr]
  · intro he
    simp [DeleteVolume, he]

/-- C4 (witness): the id `garbage` does not decode, and deleting it succeeds without a call. -/
theorem C4_delete_undecodable_witness :
    (getFileInstanceFromID "garbage").toOption = none ∧
    DeleteVolume sampleConfig { VolumeId := "garbage" } = (.ok {}, []) :=
  ⟨by decide, (C4_delete_undecodable sampleConfig "garbage" ⟨_, rfl⟩).1 (by decide)⟩

/-! ## Facts about parameter maps -/

/-- A name that is not the empty string has a length other than 0. -/
theorem name_length_ne_zero (name : String) (h : name ≠ "") : ¬ (name.length = 0) := by
  intro h0
  apply h
  cases name with
  | mk data =>
    simp only [String.length] at h0
    rw [List.length_eq_zero] at h0
    subst h0
    rfl

/-- In a map (keys pairwise distinct), looking a key up gives the value of its entry. -/
theorem lookup_of_mem_nodup (key val : String) (ps : List (String × String))
    (hmem : (key, val) ∈ ps) (hnd : (ps.map Prod.fst).Nodup) : ps.lookup key = some val := by
  induction ps with
  | nil => simp at hmem
  | cons kv rest ih =>
    obtain ⟨k, v⟩ := kv
    simp only [List.map_cons, List.nodup_cons, List.mem_map, not_exists, not_and] at hnd
    rcases List.mem_cons.1 hmem with h | h
    · simp only [Prod.mk.injEq] at h
      obtain ⟨rfl, rfl⟩ := h
      simp [List.lookup]
    · have hne : key ≠ k := by
        intro hk
        exact hnd.1 (key, val) h hk
      have hb : (key == k) = false := by simpa using hne
      simp [List.lookup, hb, ih h hnd.2]

/-- Looking up a key that no entry has gives nothing. -/
theorem lookup_none_of_no_key (key : String) (ps : List (String × String))
    (h : ∀ kv ∈ ps, kv.1 ≠ key) : ps.lookup key = none := by
  induction ps with
  | nil => rfl
  | cons kv rest ih =>
    obtain ⟨k, v⟩ := kv
    have hne : key ≠ k := fun hk => h (k, v) (List.mem_cons_self _ _) hk.symm
    have hb : (key == k) = false := by simpa using hne
    simp [List.lookup, hb, ih (fun kv hkv => h kv (List.mem_cons_of_mem _ hkv))]

/-- The parameter loop fails exactly when some key, lower-cased, is not a recognised one. -/
theorem generateNewFileInstance.loop_error_iff (s : controllerServerConfig Cap σ)
    (ps : List (String × String)) (t n l : String) :
    (∃ err, generateNewFileInstance.loop s ps t n l = .error err) ↔
      ∃ kv ∈ ps, s.ToLower kv.1 ∉ [paramTier, paramLocation, paramNetwork, paramReservedIPV4CIDR,
        "csiprovisionersecretname", "csiprovisionersecretnamespace"] := by
  induction ps generalizing t n l with
  | nil => simp [generateNewFileInstance.loop]
  | cons kv rest ih =>
    obtain ⟨k, v⟩ := kv
    simp only [generateNewFileInstance.loop, List.mem_cons, exists_eq_or_imp]
    split_ifs with h1 h2 h3 h4 h5
    · rw [ih]; simp [h1]
    · rw [ih]; simp [h2]
    · rw [ih]; simp [h3]
    · rw [ih]; simp [h4]
    · rw [ih]; rcases h5 with h5 | h5 <;> simp [h5]
    · simp only [not_or] at h5
      simp [h1, h2, h3, h4, h5.1, h5.2]

/-- When the parameter loop succeeds, each of its three variables holds the value of the last
visited entry whose lower-cased key names it, or its initial value when there is none. -/
theorem generateNewFileInstance.loop_ok_eq (s : controllerServerConfig Cap σ)
    (ps : List (String × String)) (t n l t1 n1 l1 : String)
    (h : generateNewFileInstance.loop s ps t n l = .ok (t1, n1, l1)) :
    t1 = ps.foldl (fun cur kv => if s.ToLower kv.1 = paramTier then kv.2 else cur) t ∧
    n1 = ps.foldl (fun cur kv => if s.ToLower kv.1 = paramNetwork then kv.2 else cur) n ∧
    l1 = ps.foldl (fun cur kv => if s.ToLower kv.1 = paramLocation then kv.2 else cur) l := by
  have d1 : paramLocation ≠ paramTier := by decide
  have d2 : paramNetwork ≠ paramTier := by decide
  have d3 : paramNetwork ≠ paramLocation := by decide
  have d4 : paramReservedIPV4CIDR ≠ paramTier := by decide
  have d5 : paramReservedIPV4CIDR ≠ paramLocation := by decide
  have d6 : paramReservedIPV4CIDR ≠ paramNetwork := by decide
  induction ps generalizing t n l with
  | nil =>
    simp only [generateNewFileInstance.loop, Except.ok.injEq, Prod.mk.injEq] at h
    obtain ⟨rfl, rfl, rfl⟩ := h
    simp
  | cons kv rest ih =>
    obtain ⟨k, v⟩ := kv
    simp only [generateNewFileInstance.loop] at h
    simp only [List.foldl_cons]
    split_ifs at h with h1 h2 h3 h4 h5
    · simpa [h1, d1.symm, d2.symm] using ih _ _ _ h
    · simpa [h2, d1, d3.symm] using ih _ _ _ h
    · simpa [h3, d2, d3] using ih _ _ _ h
    · simpa [h4, d4, d5, d6] using ih _ _ _ h
    · simpa [h1, h2, h3] using ih _ _ _ h

/-- The last value given to a key is `v0` when every entry for the key carries `v0` and either
there is such an entry or `v0` is the initial value. -/
theorem foldl_last_value (low : String → String) (key : String) (ps : List (String × String))
    (cur v0 : String) (hall : ∀ kv ∈ ps, low kv.1 = key → kv.2 = v0)
    (hex : cur = v0 ∨ ∃ kv ∈ ps, low kv.1 = key) :
    ps.foldl (fun cur kv => if low kv.1 = key then kv.2 else cur) cur = v0 := by
  induction ps generalizing cur with
  | nil => simpa using hex
  | cons kv rest ih =>
    simp only [List.foldl_cons]
    apply ih _ (fun kv hkv => hall kv (List.mem_cons_of_mem _ hkv))
    by_cases hk : low kv.1 = key
    · left; simp [hk, hall kv (List.mem_cons_self _ _) hk]
    · simp only [hk, if_false]
      rcases hex with hex | ⟨kv1, hkv1, hk1⟩
      · exact Or.inl hex
      · rcases List.mem_cons.1 hkv1 with rfl | hkv1
        · exact absurd hk1 hk
        · exact Or.inr ⟨kv1, hkv1, hk1⟩

/-- The last value given to a key is the value of one of the entries for the key, or the
initial value when the key has no entry. -/
theorem foldl_last_mem (low : String → String) (key : String) (ps : List (String × String))
    (cur : String) :
    ((∀ kv ∈ ps, low kv.1 ≠ key) ∧
      ps.foldl (fun cur kv => if low kv.1 = key then kv.2 else cur) cur = cur) ∨
    ∃ kv ∈ ps, low kv.1 = key ∧
      ps.foldl (fun cur kv => if low kv.1 = key then kv.2 else cur) cur = kv.2 := by
  induction ps generalizing cur with
  | nil => simp
  | cons kv rest ih =>
    simp only [List.foldl_cons]
    rcases ih (if low kv.1 = key then kv.2 else cur) with ⟨hno, heq⟩ | ⟨kv1, hmem, hk, heq⟩
    · by_cases hk : low kv.1 = key
      · right
        refine ⟨kv, List.mem_cons_self _ _, hk, ?_⟩
        simpa [hk] using heq
      · left
        refine ⟨?_, by simpa [hk] using heq⟩
        intro kv1 hkv1
        rcases List.mem_cons.1 hkv1 with rfl | hkv1
        · exact hk
        · exact hno kv1 hkv1
    · right
      exact ⟨kv1, List.mem_cons_of_mem _ hmem, hk, heq⟩

/-! ## Parameter validation -/

/-- C10: `generateNewFileInstance` returns an error exactly when some key of the parameter map,
after lower-casing, is not one of tier, location, network, reserved-ipv4-cidr,
csiprovisionersecretname, csiprovisionersecretnamespace; when it succeeds, the tier, network and
location of the instance are `standard`, `default` and the metadata zone when the map has no
key for them, and otherwise the value that an entry of the map supplies for that key. -/
theorem C10_parameter_validation (s : controllerServerConfig Cap σ) (name : String)
    (capBytes : Int) (params : List (String × String)) :
    ((∃ err, generateNewFileInstance s name capBytes params = .error err) ↔
      ∃ kv ∈ params, s.ToLower kv.1 ∉ [paramTier, paramLocation, paramNetwork,
        paramReservedIPV4CIDR, "csiprovisionersecretname", "csiprovisionersecretnamespace"]) ∧
    (∀ inst, generateNewFileInstance s name capBytes params = .ok inst →
      ((∀ kv ∈ params, s.ToLower kv.1 ≠ paramTier) → inst.Tier = defaultTier) ∧
      ((∀ kv ∈ params, s.ToLower kv.1 ≠ paramNetwork) → inst.Network.Name = defaultNetwork) ∧
      ((∀ kv ∈ params, s.ToLower kv.1 ≠ paramLocation) → inst.Location = s.GetZone) ∧
      ((∃ kv ∈ params, s.ToLower kv.1 = paramTier) →
        ∃ kv ∈ params, s.ToLower kv.1 = paramTier ∧ inst.Tier = kv.2) ∧
      ((∃ kv ∈ params, s.ToLower kv.1 = paramNetwork) →
        ∃ kv ∈ params, s.ToLower kv.1 = paramNetwork ∧ inst.Network.Name = kv.2) ∧
      ((∃ kv ∈ params, s.ToLower kv.1 = paramLocation) →
        ∃ kv ∈ params, s.ToLower kv.1 = paramLocation ∧ inst.Location = kv.2)) := by
  constructor
  · rw [← generateNewFileInstance.loop_error_iff s params defaultTier defaultNetwork s.GetZone]
    unfold generateNewFileInstance
    cases hloop : generateNewFileInstance.loop s params defaultTier defaultNetwork s.GetZone with
    | error err => simp [hloop]
    | ok r => simp [hloop]
  · intro inst hok
    unfold generateNewFileInstance at hok
    cases hloop : generateNewFileInstance.loop s params defaultTier defaultNetwork s.GetZone with
    | error err => simp [hloop] at hok
    | ok r =>
      obtain ⟨t1, n1, l1⟩ := r
      simp only [hloop, Except.ok.injEq] at hok
      obtain ⟨ht, hn, hl⟩ := generateNewFileInstance.loop_ok_eq s params _ _ _ _ _ _ hloop
      subst hok
      simp only
      refine ⟨?_, ?_, ?_, ?_, ?_, ?_⟩
      · intro hno
        rw [ht]
        exact foldl_last_value s.ToLower paramTier params _ _
          (fun kv hkv hk => absurd hk (hno kv hkv)) (Or.inl rfl)
      · intro hno
        rw [hn]
        exact foldl_last_value s.ToLower paramNetwork params _ _
          (fun kv hkv hk => absurd hk (hno kv hkv)) (Or.inl rfl)
      · intro hno
        rw [hl]
        exact foldl_last_value s.ToLower paramLocation params _ _
          (fun kv hkv hk => absurd hk (hno kv hkv)) (Or.inl rfl)
      · rintro ⟨kv0, hmem0, hk0⟩
        rw [ht]
        rcases foldl_last_mem s.ToLower paramTier params defaultTier with ⟨hno, _⟩ | hex
        · exact absurd hk0 (hno kv0 hmem0)
        · exact hex
      · rintro ⟨kv0, hmem0, hk0⟩
        rw [hn]
        rcases foldl_last_mem s.ToLower paramNetwork params defaultNetwork with ⟨hno, _⟩ | hex
        · exact absurd hk0 (hno kv0 hmem0)
        · exact hex
      · rintro ⟨kv0, hmem0, hk0⟩
        rw [hl]
        rcases foldl_last_mem s.ToLower paramLocation params s.GetZone with ⟨hno, _⟩ | hex
        · exact absurd hk0 (hno kv0 hmem0)
        · exact hex

/-- C10 (witness): with the parameters `Tier = premium` and `network = vpc-1`, the instance has
the tier of an entry whose key lower-cases to `tier`, which can only be `premium`, and, for want
of a location key, the metadata zone as location; the key `colour` is refused. -/
theorem C10_parameter_validation_witness :
    generateNewFileInstance sampleConfig "vol-a" minVolumeSize
        [("Tier", "premium"), ("network", "vpc-1")] =
      .ok { sampleFiler with Tier := "premium", Network := { Name := "vpc-1" } } ∧
    (∃ kv ∈ [("Tier", "premium"), ("network", "vpc-1")],
      asciiToLower kv.1 = paramTier ∧ "premium" = kv.2) ∧
    ({ sampleFiler with Tier := "premium", Network := { Name := "vpc-1" } } :
      file.ServiceInstance).Location = sampleConfig.GetZone ∧
    ∃ err, generateNewFileInstance sampleConfig "vol-a" minVolumeSize
        [("Tier", "premium"), ("colour", "red")] = .error err :=
  have h := (C10_parameter_validation sampleConfig "vol-a" minVolumeSize
    [("Tier", "premium"), ("network", "vpc-1")]).2
    { sampleFiler with Tier := "premium", Network := { Name := "vpc-1" } } (by decide)
  ⟨by decide, h.2.2.2.1 ⟨("Tier", "premium"), by decide, by decide⟩, h.2.2.1 (by decide),
    (C10_parameter_validation sampleConfig "vol-a" minVolumeSize
      [("Tier", "premium"), ("colour", "red")]).1.2 ⟨("colour", "red"), by decide, by decide⟩⟩

/-! ## The paths of CreateVolume after validation -/

/-- An error that is absent or a not-found error does not stop the lookup. -/
theorem filter_none_of_notFound (s : controllerServerConfig Cap σ) (e : Option GoError)
    (he : ∀ err, e = some err → s.IsNotFoundErr err = true) :
    e.filter (fun err => !s.IsNotFoundErr err) = none := by
  cases e with
  | none => rfl
  | some err => simp [Option.filter, he err rfl]

/-- The tail of CreateVolume calls `CreateInstance` once, on the instance it is given. -/
theorem CreateVolume.create_calls (s : controllerServerConfig Cap σ)
    (newFiler : file.ServiceInstance) :
    (CreateVolume.create s newFiler).2 = [Call.CreateInstance newFiler] := by
  unfold CreateVolume.create
  cases s.CreateInstance newFiler <;> rfl

/-- The tail of CreateVolume turns a failure of `CreateInstance` into an `Internal` status. -/
theorem CreateVolume.create_error (s : controllerServerConfig Cap σ)
    (newFiler : file.ServiceInstance) (err : GoError)
    (h : s.CreateInstance newFiler = .error err) :
    (CreateVolume.create s newFiler).1 = .error (status.Error Code.Internal err.msg) := by
  simp [CreateVolume.create, h]

/-- Path 1: the lookup fails with an error other than not-found. -/
theorem CreateVolume_lookup_failed (s : controllerServerConfig Cap σ) (st : σ)
    (req : csi.CreateVolumeRequest Cap) (newFiler : file.ServiceInstance)
    (hname : req.Name ≠ "")
    (hcaps : s.validateVolumeCapabilities req.VolumeCapabilities = none)
    (hgen : generateNewFileInstance s req.Name (getRequestCapacity req.CapacityRange)
      req.Parameters = .ok newFiler)
    (filer : Option file.ServiceInstance) (err : GoError)
    (hget : s.GetInstance newFiler = (filer, some err)) (hnf : s.IsNotFoundErr err = false) :
    CreateVolume s st req =
      ⟨.error (status.Error Code.Internal err.msg), st, [Call.GetInstance newFiler]⟩ := by
  have hlen := name_length_ne_zero _ hname
  simp [CreateVolume, hlen, hcaps, hgen, hget, Option.filter, hnf]

/-- Path 2: the lookup finds an instance. -/
theorem CreateVolume_existing (s : controllerServerConfig Cap σ) (st : σ)
    (req : csi.CreateVolumeRequest Cap) (newFiler : file.ServiceInstance)
    (hname : req.Name ≠ "")
    (hcaps : s.validateVolumeCapabilities req.VolumeCapabilities = none)
    (hgen : generateNewFileInstance s req.Name (getRequestCapacity req.CapacityRange)
      req.Parameters = .ok newFiler)
    (filer : file.ServiceInstance) (e : Option GoError)
    (hget : s.GetInstance newFiler = (some filer, e))
    (he : ∀ err, e = some err → s.IsNotFoundErr err = true) :
    CreateVolume s st req =
      ⟨match s.CompareInstances newFiler filer with
        | some err => .error (status.Error Code.AlreadyExists err.msg)
        | none => .ok { Volume := fileInstanceToCSIVolume filer modeInstance },
       st, [Call.GetInstance newFiler]⟩ := by
  have hlen := name_length_ne_zero _ hname
  have hfil := filter_none_of_notFound s e he
  cases hcmp : s.CompareInstances newFiler filer <;>
    simp [CreateVolume, hlen, hcaps, hgen, hget, hfil, hcmp]

/-- Path 3: no instance is found and the map has no entry under `reserved-ipv4-cidr`. -/
theorem CreateVolume_no_pool (s : controllerServerConfig Cap σ) (st : σ)
    (req : csi.CreateVolumeRequest Cap) (newFiler : file.ServiceInstance)
    (hname : req.Name ≠ "")
    (hcaps : s.validateVolumeCapabilities req.VolumeCapabilities = none)
    (hgen : generateNewFileInstance s req.Name (getRequestCapacity req.CapacityRange)
      req.Parameters = .ok newFiler)
    (e : Option GoError)
    (hget : s.GetInstance newFiler = (none, e))
    (he : ∀ err, e = some err → s.IsNotFoundErr err = true)
    (hkey : req.Parameters.lookup paramReservedIPV4CIDR = none) :
    CreateVolume s st req =
      ⟨(CreateVolume.create s newFiler).1, st,
        Call.GetInstance newFiler :: (CreateVolume.create s newFiler).2⟩ := by
  have hlen := name_length_ne_zero _ hname
  have hfil := filter_none_of_notFound s e he
  simp [CreateVolume, hlen, hcaps, hgen, hget, hfil, hkey]

/-- Path 4: a pool is given and listing the instances fails. -/
theorem CreateVolume_list_failed (s : controllerServerConfig Cap σ) (st : σ)
    (req : csi.CreateVolumeRequest Cap) (newFiler : file.ServiceInstance)
    (hname : req.Name ≠ "")
    (hcaps : s.validateVolumeCapabilities req.VolumeCapabilities = none)
    (hgen : generateNewFileInstance s req.Name (getRequestCapacity req.CapacityRange)
      req.Parameters = .ok newFiler)
    (e : Option GoError) (cidr : String) (err : GoError)
    (hget : s.GetInstance newFiler = (none, e))
    (he : ∀ err, e = some err → s.IsNotFoundErr err = true)
    (hkey : req.Parameters.lookup paramReservedIPV4CIDR = some cidr)
    (hlist : s.ListInstances newFiler = .error err) :
    CreateVolume s st req =
      ⟨.error (status.Error Code.Aborted err.msg), s.ReleaseIPRange st "",
        [Call.GetInstance newFiler, Call.ListInstances newFiler, Call.ReleaseIPRange ""]⟩ := by
  have hlen := name_length_ne_zero _ hname
  have hfil := filter_none_of_notFound s e he
  simp [CreateVolume, hlen, hcaps, hgen, hget, hfil, hkey, reserveIPRange,
    getCloudInstancesReservedIPRanges, hlist]

/-- Path 5: a pool is given, listing succeeds and the allocator fails. -/
theorem CreateVolume_alloc_failed (s : controllerServerConfig Cap σ) (st : σ)
    (req : csi.CreateVolumeRequest Cap) (newFiler : file.ServiceInstance)
    (hname : req.Name ≠ "")
    (hcaps : s.validateVolumeCapabilities req.VolumeCapabilities = none)
    (hgen : generateNewFileInstance s req.Name (getRequestCapacity req.CapacityRange)
      req.Parameters = .ok newFiler)
    (e : Option GoError) (cidr : String) (err : GoError)
    (instances : List file.ServiceInstance) (st1 : σ)
    (hget : s.GetInstance newFiler = (none, e))
    (he : ∀ err, e = some err → s.IsNotFoundErr err = true)
    (hkey : req.Parameters.lookup paramReservedIPV4CIDR = some cidr)
    (hlist : s.ListInstances newFiler = .ok instances)
    (halloc : s.GetUnreservedIPRange st cidr
      (instances.foldl (fun m inst => List.insert inst.Network.ReservedIpRange m) []) =
        (.error err, st1)) :
    CreateVolume s st req =
      ⟨.error err, s.ReleaseIPRange st1 "",
        [Call.GetInstance newFiler, Call.ListInstances newFiler,
         Call.GetUnreservedIPRange cidr
          (instances.foldl (fun m inst => List.insert inst.Network.ReservedIpRange m) []),
         Call.ReleaseIPRange ""]⟩ := by
  have hlen := name_length_ne_zero _ hname
  have hfil := filter_none_of_notFound s e he
  simp [CreateVolume, hlen, hcaps, hgen, hget, hfil, hkey, reserveIPRange,
    getCloudInstancesReservedIPRanges, hlist, halloc]

/-- Path 6: a pool is given, listing succeeds and the allocator returns a block. -/
theorem CreateVolume_alloc_ok (s : controllerServerConfig Cap σ) (st : σ)
    (req : csi.CreateVolumeRequest Cap) (newFiler : file.ServiceInstance)
    (hname : req.Name ≠ "")
    (hcaps : s.validateVolumeCapabilities req.VolumeCapabilities = none)
    (hgen : generateNewFileInstance s req.Name (getRequestCapacity req.CapacityRange)
      req.Parameters = .ok newFiler)
    (e : Option GoError) (cidr : String) (block : String)
    (instances : List file.ServiceInstance) (st1 : σ)
    (hget : s.GetInstance newFiler = (none, e))
    (he : ∀ err, e = some err → s.IsNotFoundErr err = true)
    (hkey : req.Parameters.lookup paramReservedIPV4CIDR = some cidr)
    (hlist : s.ListInstances newFiler = .ok instances)
    (halloc : s.GetUnreservedIPRange st cidr
      (instances.foldl (fun m inst => List.insert inst.Network.ReservedIpRange m) []) =
        (.ok block, st1)) :
    CreateVolume s st req =
      ⟨(CreateVolume.create s
          { newFiler with Network := { newFiler.Network with ReservedIpRange := block } }).1,
        s.ReleaseIPRange st1 block,
        [Call.GetInstance newFiler, Call.ListInstances newFiler,
         Call.GetUnreservedIPRange cidr
          (instances.foldl (fun m inst => List.insert inst.Network.ReservedIpRange m) [])] ++
        (CreateVolume.create s
          { newFiler with Network := { newFiler.Network with ReservedIpRange := block } }).2 ++
        [Call.ReleaseIPRange block]⟩ := by
  have hlen := name_length_ne_zero _ hname
  have hfil := filter_none_of_notFound s e he
  simp [CreateVolume, hlen, hcaps, hgen, hget, hfil, hkey, reserveIPRange,
    getCloudInstancesReservedIPRanges, hlist, halloc]

/-! ## CreateVolume: reuse of an existing instance -/

/-- C3: for every CreateVolume request that passes validation, if the lookup `GetInstance`
returns an existing instance, then the only call made is that lookup (neither `CreateInstance`
nor the IP allocator is invoked, and the allocator state is untouched); the call succeeds with
the volume, and so the identifier, encoded from the existing instance when `CompareInstances`
reports a match, and fails with `AlreadyExists` when it reports a difference. -/
theorem C3_existing_instance_reused (s : controllerServerConfig Cap σ) (st : σ)
    (req : csi.CreateVolumeRequest Cap) (newFiler : file.ServiceInstance)
    (hname : req.Name ≠ "")
    (hcaps : s.validateVolumeCapabilities req.VolumeCapabilities = none)
    (hgen : generateNewFileInstance s req.Name (getRequestCapacity req.CapacityRange)
      req.Parameters = .ok newFiler)
    (filer : file.ServiceInstance) (e : Option GoError)
    (hget : s.GetInstance newFiler = (some filer, e))
    (he : ∀ err, e = some err → s.IsNotFoundErr err = true) :
    (CreateVolume s st req).calls = [Call.GetInstance newFiler] ∧
    (CreateVolume s st req).alloc = st ∧
    (s.CompareInstances newFiler filer = none →
      (CreateVolume s st req).result =
        .ok { Volume := { Id := getVolumeIDFromFileInstance filer modeInstance,
                          CapacityBytes := filer.Volume.SizeBytes,
                          Attributes := [(attrIP, filer.Network.Ip),
                                         (attrVolume, filer.Volume.Name)] } }) ∧
    (∀ err, s.CompareInstances newFiler filer = some err →
      (CreateVolume s st req).result = .error (status.Error Code.AlreadyExists err.msg)) := by
  rw [CreateVolume_existing s st req newFiler hname hcaps hgen filer e hget he]
  refine ⟨rfl, rfl, ?_, ?_⟩
  · intro hcmp
    simp [hcmp, fileInstanceToCSIVolume]
  · intro err hcmp
    simp [hcmp]

/-- C3 (witness): when the instance the request describes already exists, a second CreateVolume
returns its id without another call; when the existing instance has another size, the call
fails with `AlreadyExists`. -/
theorem C3_existing_instance_reused_witness :
    (CreateVolume { sampleConfig with GetInstance := fun _ => (some sampleFiler, none) } []
        (sampleRequest [])).result =
      .ok { Volume := { Id := "modeInstance/us-central1-a/vol-a/vol1",
                        CapacityBytes := minVolumeSize,
                        Attributes := [("ip", ""), ("volume", "vol1")] } } ∧
    (CreateVolume
        { sampleConfig with GetInstance := fun _ =>
            (some { sampleFiler with Volume := { Name := "vol1", SizeBytes := 2 * util.Tb } },
              none) } []
        (sampleRequest [])).result =
      .error (status.Error Code.AlreadyExists "instance mismatch") :=
  ⟨(C3_existing_instance_reused
      { sampleConfig with GetInstance := fun _ => (some sampleFiler, none) } []
      (sampleRequest []) sampleFiler (by decide) rfl (by decide) sampleFiler none rfl
      (by simp)).2.2.1 (by decide),
   (C3_existing_instance_reused
      { sampleConfig with GetInstance := fun _ =>
          (some { sampleFiler with Volume := { Name := "vol1", SizeBytes := 2 * util.Tb } },
            none) } []
      (sampleRequest []) sampleFiler (by decide) rfl (by decide)
      { sampleFiler with Volume := { Name := "vol1", SizeBytes := 2 * util.Tb } } none rfl
      (by simp)).2.2.2 (fmt.Errorf "instance mismatch") (by decide)⟩

/-! ## CreateVolume: failures of the remote API -/

/-- C9 (counterexample): a valid request with an address pool, for which no instance exists and
`ListInstances` fails, gets the status `Aborted`, which is not `Internal`. -/
theorem C9_list_failure_is_aborted :
    (CreateVolume
        { sampleConfig with ListInstances := fun _ => .error (fmt.Errorf "list failed") } []
        (sampleRequest [("reserved-ipv4-cidr", "192.168.92.0/26")])).calls =
      [Call.GetInstance sampleFiler, Call.ListInstances sampleFiler, Call.ReleaseIPRange ""] ∧
    (CreateVolume
        { sampleConfig with ListInstances := fun _ => .error (fmt.Errorf "list failed") } []
        (sampleRequest [("reserved-ipv4-cidr", "192.168.92.0/26")])).result =
      .error { code := Code.Aborted, msg := "list failed" } ∧
    Code.Aborted ≠ Code.Internal := by
  decide

/-- C9 (amended): for every CreateVolume request that passes validation, if `GetInstance` fails
with an error other than not-found, or the `CreateInstance` call made during the request fails,
CreateVolume returns an error whose status code is `Internal`; if the `ListInstances` call made
during the request fails, it returns an error whose status code is `Aborted`. -/
theorem C9_remote_failures (s : controllerServerConfig Cap σ) (st : σ)
    (req : csi.CreateVolumeRequest Cap) (newFiler : file.ServiceInstance)
    (hname : req.Name ≠ "")
    (hcaps : s.validateVolumeCapabilities req.VolumeCapabilities = none)
    (hgen : generateNewFileInstance s req.Name (getRequestCapacity req.CapacityRange)
      req.Parameters = .ok newFiler) :
    (∀ filer err, s.GetInstance newFiler = (filer, some err) → s.IsNotFoundErr err = false →
      (CreateVolume s st req).result = .error (status.Error Code.Internal err.msg)) ∧
    (∀ obj err, Call.ListInstances obj ∈ (CreateVolume s st req).calls →
      s.ListInstances obj = .error err →
      (CreateVolume s st req).result = .error (status.Error Code.Aborted err.msg)) ∧
    (∀ obj err, Call.CreateInstance obj ∈ (CreateVolume s st req).calls →
      s.CreateInstance obj = .error err →
      (CreateVolume s st req).result = .error (status.Error Code.Internal err.msg)) := by
  refine ⟨?_, ?_⟩
  · intro filer err hget hnf
    rw [CreateVolume_lookup_failed s st req newFiler hname hcaps hgen filer err hget hnf]
  rcases hget : s.GetInstance newFiler with ⟨filer, e⟩
  by_cases hfatal : ∃ err, e = some err ∧ s.IsNotFoundErr err = false
  · obtain ⟨err0, rfl, hnf⟩ := hfatal
    rw [CreateVolume_lookup_failed s st req newFiler hname hcaps hgen filer err0 hget hnf]
    simp
  have he : ∀ err, e = some err → s.IsNotFoundErr err = true := by
    intro err herr
    by_contra hc
    exact hfatal ⟨err, herr, by simpa using hc⟩
  cases filer with
  | some filer =>
    rw [CreateVolume_existing s st req newFiler hname hcaps hgen filer e hget he]
    simp
  | none =>
    cases hkey : req.Parameters.lookup paramReservedIPV4CIDR with
    | none =>
      rw [CreateVolume_no_pool s st req newFiler hname hcaps hgen e hget he hkey]
      simp only [CreateVolume.create_calls]
      refine ⟨by simp, ?_⟩
      intro obj err hmem herr
      simp only [List.mem_cons, List.mem_singleton, Call.CreateInstance.injEq, List.not_mem_nil,
        or_false, false_or, reduceCtorEq] at hmem
      subst hmem
      exact CreateVolume.create_error s _ err herr
    | some cidr =>
      cases hlist : s.ListInstances newFiler with
      | error lerr =>
        rw [CreateVolume_list_failed s st req newFiler hname hcaps hgen e cidr lerr hget he
          hkey hlist]
        refine ⟨?_, by simp⟩
        intro obj err hmem herr
        simp only [List.mem_cons, List.mem_singleton, Call.ListInstances.injEq,
          List.not_mem_nil, or_false, false_or, reduceCtorEq] at hmem
        subst hmem
        rw [hlist] at herr
        simp only [Except.error.injEq] at herr
        subst herr
        rfl
      | ok instances =>
        rcases halloc : s.GetUnreservedIPRange st cidr
          (instances.foldl (fun m inst => List.insert inst.Network.ReservedIpRange m) [])
          with ⟨r, st1⟩
        cases r with
        | error aerr =>
          rw [CreateVolume_alloc_failed s st req newFiler hname hcaps hgen e cidr aerr instances
            st1 hget he hkey hlist halloc]
          refine ⟨?_, by simp⟩
          intro obj err hmem herr
          simp only [List.mem_cons, List.mem_singleton, Call.ListInstances.injEq,
            List.not_mem_nil, or_false, false_or, reduceCtorEq] at hmem
          subst hmem
          rw [hlist] at herr
          simp at herr
        | ok block =>
          rw [CreateVolume_alloc_ok s st req newFiler hname hcaps hgen e cidr block instances
            st1 hget he hkey hlist halloc]
          simp only [CreateVolume.create_calls]
          refine ⟨?_, ?_⟩
          · intro obj err hmem herr
            simp only [List.cons_append, List.nil_append, List.mem_cons, List.mem_singleton,
              Call.ListInstances.injEq, List.not_mem_nil, or_false, false_or,
              reduceCtorEq] at hmem
            subst hmem
            rw [hlist] at herr
            simp at herr
          · intro obj err hmem herr
            simp only [List.cons_append, List.nil_append, List.mem_cons, List.mem_singleton,
              Call.CreateInstance.injEq, List.not_mem_nil, or_false, false_or,
              reduceCtorEq] at hmem
            subst hmem
            exact CreateVolume.create_error s _ err herr

/-- C9 (witness): with a pool given, a failure of `ListInstances` gives `Aborted`; without a
pool, a failure of `CreateInstance` gives `Internal`. -/
theorem C9_remote_failures_witness :
    (CreateVolume
        { sampleConfig with ListInstances := fun _ => .error (fmt.Errorf "list failed") } []
        (sampleRequest [("reserved-ipv4-cidr", "192.168.92.0/26")])).result =
      .error (status.Error Code.Aborted "list failed") ∧
    (CreateVolume
        { sampleConfig with CreateInstance := fun _ => .error (fmt.Errorf "create failed") } []
        (sampleRequest [])).result =
      .error (status.Error Code.Internal "create failed") :=
  ⟨(C9_remote_failures
      { sampleConfig with ListInstances := fun _ => .error (fmt.Errorf "list failed") } []
      (sampleRequest [("reserved-ipv4-cidr", "192.168.92.0/26")]) sampleFiler
      (by decide) rfl (by decide)).2.1 sampleFiler (fmt.Errorf "list failed") (by decide) rfl,
   (C9_remote_failures
      { sampleConfig with CreateInstance := fun _ => .error (fmt.Errorf "create failed") } []
      (sampleRequest []) sampleFiler
      (by decide) rfl (by decide)).2.2 sampleFiler (fmt.Errorf "create failed") (by decide) rfl⟩

/-! ## CreateVolume: the address-pool parameter -/

/-- C8 (the code at the failing input): the request carries the address-pool key written
`Reserved-IPv4-CIDR`, which lower-cases to `reserved-ipv4-cidr`; it passes validation and no
instance exists, yet CreateVolume makes no call to the allocator and passes `CreateInstance` an
instance with an empty `ReservedIpRange`.  The same request with the key in lower case calls
`GetUnreservedIPRange` on the pool and creates the instance with the block it returned. -/
theorem C8_pool_key_in_other_case_ignored :
    asciiToLower "Reserved-IPv4-CIDR" = paramReservedIPV4CIDR ∧
    generateNewFileInstance sampleConfig "vol-a" (getRequestCapacity none)
        [("Reserved-IPv4-CIDR", "192.168.92.0/26")] = .ok sampleFiler ∧
    (CreateVolume sampleConfig [] (sampleRequest [("Reserved-IPv4-CIDR", "192.168.92.0/26")])).calls
      = [Call.GetInstance sampleFiler, Call.CreateInstance sampleFiler] ∧
    sampleFiler.Network.ReservedIpRange = "" ∧
    (CreateVolume sampleConfig [] (sampleRequest [("reserved-ipv4-cidr", "192.168.92.0/26")])).calls
      = [Call.GetInstance sampleFiler, Call.ListInstances sampleFiler,
         Call.GetUnreservedIPRange "192.168.92.0/26" [],
         Call.CreateInstance
           { sampleFiler with
             Network := { Name := "default", ReservedIpRange := "192.168.92.32/29" } },
         Call.ReleaseIPRange "192.168.92.32/29"] := by
  decide

/-! ## Further facts about the codec and the parameters -/

/-- An id that decodes has exactly the returned fields as its tokens, and the decoded instance
has no other field set. -/
theorem getFileInstanceFromID_tokens_of_ok (id : String) (obj : file.ServiceInstance)
    (mode : String) (hok : getFileInstanceFromID id = .ok (obj, mode)) :
    strings.Split id '/' = [mode, obj.Location, obj.Name, obj.Volume.Name] ∧
    obj = { Location := obj.Location, Name := obj.Name, Volume := { Name := obj.Volume.Name } } := by
  by_cases h : (strings.Split id '/').length = 4
  · match hs : strings.Split id '/', h with
    | [a, b, c, d], _ =>
      rw [getFileInstanceFromID_of_tokens id a b c d hs] at hok
      simp only [Except.ok.injEq, Prod.mk.injEq] at hok
      obtain ⟨rfl, rfl⟩ := hok
      exact ⟨rfl, rfl⟩
  · simp [getFileInstanceFromID, h, totalIDElements] at hok

/-- An id that decodes is not the empty string. -/
theorem getFileInstanceFromID_ne_empty (id : String) (obj : file.ServiceInstance)
    (mode : String) (hok : getFileInstanceFromID id = .ok (obj, mode)) : id ≠ "" := by
  rintro rfl
  have h := (getFileInstanceFromID_tokens_of_ok "" obj mode hok).1
  have h2 : (strings.Split "" '/').length = 1 := by decide
  rw [h] at h2
  simp at h2

/-- Joining four elements with `/` is concatenation with `/` in between. -/
theorem strings.Join_four (a b c d : String) :
    strings.Join [a, b, c, d] '/' = a ++ "/" ++ b ++ "/" ++ c ++ "/" ++ d := by
  apply String.ext
  simp [strings.Join, List.intercalate, String.toList]

/-- The function `generateNewFileInstance` fails exactly when some key, lower-cased, is not a
recognised one. -/
theorem generateNewFileInstance_error_iff (s : controllerServerConfig Cap σ) (name : String)
    (capBytes : Int) (params : List (String × String)) :
    (∃ err, generateNewFileInstance s name capBytes params = .error err) ↔
      ∃ kv ∈ params, s.ToLower kv.1 ∉ [paramTier, paramLocation, paramNetwork,
        paramReservedIPV4CIDR, "csiprovisionersecretname", "csiprovisionersecretnamespace"] := by
  rw [← generateNewFileInstance.loop_error_iff s params defaultTier defaultNetwork s.GetZone]
  unfold generateNewFileInstance
  cases hloop : generateNewFileInstance.loop s params defaultTier defaultNetwork s.GetZone with
  | error err => simp [hloop]
  | ok r => simp [hloop]

/-- The instance that `generateNewFileInstance` returns, field by field: tier, network and
location are the last values visited for their keys, or the defaults. -/
theorem generateNewFileInstance_ok_fields (s : controllerServerConfig Cap σ) (name : String)
    (capBytes : Int) (params : List (String × String)) (inst : file.ServiceInstance)
    (hok : generateNewFileInstance s name capBytes params = .ok inst) :
    inst = { Project := s.GetProject, Name := name,
             Location := (params.foldl
               (fun cur kv => if s.ToLower kv.1 = paramLocation then kv.2 else cur) s.GetZone),
             Tier := (params.foldl
               (fun cur kv => if s.ToLower kv.1 = paramTier then kv.2 else cur) defaultTier),
             Network := { Name := (params.foldl
               (fun cur kv => if s.ToLower kv.1 = paramNetwork then kv.2 else cur)
               defaultNetwork) },
             Volume := { Name := newInstanceVolume, SizeBytes := capBytes } } := by
  unfold generateNewFileInstance at hok
  cases hloop : generateNewFileInstance.loop s params defaultTier defaultNetwork s.GetZone with
  | error err => simp [hloop] at hok
  | ok r =>
    obtain ⟨t1, n1, l1⟩ := r
    simp only [hloop, Except.ok.injEq] at hok
    obtain ⟨ht, hn, hl⟩ := generateNewFileInstance.loop_ok_eq s params _ _ _ _ _ _ hloop
    rw [← hok, ht, hn, hl]

/-! ## CreateVolume: validation is local -/

/-- C11: for every CreateVolume request whose name is empty, or whose capabilities the driver
does not support, or whose parameters contain a key that, lower-cased, is not a recognised one,
CreateVolume returns an `InvalidArgument` error and makes no call at all: none to the remote
API (`GetInstance`, `ListInstances`, `CreateInstance`) and none to the IP allocator, whose state
is unchanged. -/
theorem C11_validation_is_local (s : controllerServerConfig Cap σ) (st : σ)
    (req : csi.CreateVolumeRequest Cap)
    (h : req.Name = "" ∨
      (∃ err, s.validateVolumeCapabilities req.VolumeCapabilities = some err) ∨
      ∃ kv ∈ req.Parameters, s.ToLower kv.1 ∉ [paramTier, paramLocation, paramNetwork,
        paramReservedIPV4CIDR, "csiprovisionersecretname", "csiprovisionersecretnamespace"]) :
    (∃ msg, (CreateVolume s st req).result = .error (status.Error Code.InvalidArgument msg)) ∧
    (CreateVolume s st req).calls = [] ∧
    (CreateVolume s st req).alloc = st := by
  by_cases hname : req.Name = ""
  · simp [CreateVolume, hname]
  have hlen := name_length_ne_zero _ hname
  cases hcaps : s.validateVolumeCapabilities req.VolumeCapabilities with
  | some err => simp [CreateVolume, hlen, hcaps]
  | none =>
    have hbad : ∃ err, generateNewFileInstance s req.Name
        (getRequestCapacity req.CapacityRange) req.Parameters = .error err := by
      rw [generateNewFileInstance_error_iff]
      rcases h with h | ⟨err, h⟩ | h
      · exact absurd h hname
      · rw [hcaps] at h; simp at h
      · exact h
    obtain ⟨err, herr⟩ := hbad
    simp [CreateVolume, hlen, hcaps, herr]

/-- C11 (witness): a request with the unrecognised parameter `colour`, one with an empty name
and one with unsupported capabilities are each refused without a call. -/
theorem C11_validation_is_local_witness :
    ((∃ msg, (CreateVolume sampleConfig [] (sampleRequest [("colour", "red")])).result =
        .error (status.Error Code.InvalidArgument msg)) ∧
      (CreateVolume sampleConfig [] (sampleRequest [("colour", "red")])).calls = [] ∧
      (CreateVolume sampleConfig [] (sampleRequest [("colour", "red")])).alloc = []) ∧
    (CreateVolume sampleConfig [] { sampleRequest [] with Name := "" }).calls = [] ∧
    (CreateVolume
      { sampleConfig with validateVolumeCapabilities := fun _ => some (fmt.Errorf "block") } []
      (sampleRequest [])).calls = [] :=
  ⟨C11_validation_is_local sampleConfig [] (sampleRequest [("colour", "red")])
      (Or.inr (Or.inr ⟨("colour", "red"), by decide, by decide⟩)),
   (C11_validation_is_local sampleConfig [] { sampleRequest [] with Name := "" }
      (Or.inl rfl)).2.1,
   (C11_validation_is_local
      { sampleConfig with validateVolumeCapabilities := fun _ => some (fmt.Errorf "block") } []
      (sampleRequest []) (Or.inr (Or.inl ⟨_, rfl⟩))).2.1⟩

/-! ## Reverse round trip -/

/-- C18: for every string id on which `getFileInstanceFromID` succeeds, returning instance `f`
and mode `m`, `getVolumeIDFromFileInstance f m` equals id. -/
theorem C18_reverse_roundtrip (id : String) (obj : file.ServiceInstance) (mode : String)
    (hok : getFileInstanceFromID id = .ok (obj, mode)) :
    getVolumeIDFromFileInstance obj mode = id := by
  rw [getVolumeIDFromFileInstance_eq, ← (getFileInstanceFromID_tokens_of_ok id obj mode hok).1]
  exact strings.Join_Split id

/-- C18 (witness): the ids `modeInstance/us-central1-a/vol-a/vol1` and `///` are given back by
encoding what they decode to. -/
theorem C18_reverse_roundtrip_witness :
    getVolumeIDFromFileInstance
        { Location := "us-central1-a", Name := "vol-a", Volume := { Name := "vol1" } }
        "modeInstance" = "modeInstance/us-central1-a/vol-a/vol1" ∧
    getVolumeIDFromFileInstance {} "" = "///" :=
  ⟨C18_reverse_roundtrip "modeInstance/us-central1-a/vol-a/vol1"
      { Location := "us-central1-a", Name := "vol-a", Volume := { Name := "vol1" } }
      "modeInstance" (by decide),
   C18_reverse_roundtrip "///" {} "" (by decide)⟩

/-! ## Capacity bounds -/

/-- C19: for every capacity range, an absent one and one with negative required or limit bytes
included, the capacity is strictly positive, and whenever the limit bytes are positive the
capacity does not exceed them. -/
theorem C19_capacity_bounds (capRange : Option csi.CapacityRange) :
    0 < getRequestCapacity capRange ∧
    ∀ r, capRange = some r → r.LimitBytes > 0 → getRequestCapacity capRange ≤ r.LimitBytes := by
  have hfloor : (0 : Int) < minVolumeSize := by decide
  cases capRange with
  | none => simp [getRequestCapacity, hfloor]
  | some r =>
    by_cases hl : r.LimitBytes > 0
    · by_cases hr : r.RequiredBytes = 0
      · simp [getRequestCapacity, hl, hr]
      · simp [getRequestCapacity, hl, hr, util.Min, util.Max]
        omega
    · simp [getRequestCapacity, hl, util.Max]
      omega

/-- C19 (witness): with required bytes -5 and limit bytes 7 the capacity is positive and at most
7; with both negative it is positive. -/
theorem C19_capacity_bounds_witness :
    (0 < getRequestCapacity (some { RequiredBytes := -5, LimitBytes := 7 }) ∧
      getRequestCapacity (some { RequiredBytes := -5, LimitBytes := 7 }) ≤ 7) ∧
    0 < getRequestCapacity (some { RequiredBytes := -5, LimitBytes := -7 }) :=
  ⟨⟨(C19_capacity_bounds (some { RequiredBytes := -5, LimitBytes := 7 })).1,
     (C19_capacity_bounds (some { RequiredBytes := -5, LimitBytes := 7 })).2
       { RequiredBytes := -5, LimitBytes := 7 } rfl (by decide)⟩,
   (C19_capacity_bounds (some { RequiredBytes := -5, LimitBytes := -7 })).1⟩

/-! ## CreateVolume: the identifier of a new volume -/

/-- The id of a new instance, as a concatenation. -/
theorem new_volume_id_eq (location name : String) :
    strings.Join [modeInstance, location, name, newInstanceVolume] '/' =
      "modeInstance/" ++ location ++ "/" ++ name ++ "/vol1" := by
  apply String.ext
  simp [strings.Join, List.intercalate, String.toList, modeInstance, newInstanceVolume]

/-- C12: for every CreateVolume request with non-empty name `n`, supported capabilities, valid
parameters and no address-pool parameter, if `GetInstance` reports that there is no instance
and `CreateInstance` succeeds returning the instance it was given, then CreateVolume succeeds,
the returned volume id is exactly `modeInstance/L/n/vol1`, where `L` is the metadata zone when
no key is a location key and the value supplied for the location key otherwise, and the returned
capacity is `getRequestCapacity` of the range of the request. -/
theorem C12_new_volume_id (s : controllerServerConfig Cap σ) (st : σ)
    (req : csi.CreateVolumeRequest Cap) (newFiler : file.ServiceInstance) (e : Option GoError)
    (hname : req.Name ≠ "")
    (hcaps : s.validateVolumeCapabilities req.VolumeCapabilities = none)
    (hgen : generateNewFileInstance s req.Name (getRequestCapacity req.CapacityRange)
      req.Parameters = .ok newFiler)
    (hpool : ∀ kv ∈ req.Parameters, kv.1 ≠ paramReservedIPV4CIDR)
    (hget : s.GetInstance newFiler = (none, e))
    (he : ∀ err, e = some err → s.IsNotFoundErr err = true)
    (hcreate : s.CreateInstance newFiler = .ok newFiler) :
    ∃ vol, (CreateVolume s st req).result = .ok { Volume := vol } ∧
      vol.Id = "modeInstance/" ++ newFiler.Location ++ "/" ++ req.Name ++ "/vol1" ∧
      vol.CapacityBytes = getRequestCapacity req.CapacityRange ∧
      ((∀ kv ∈ req.Parameters, s.ToLower kv.1 ≠ paramLocation) →
        newFiler.Location = s.GetZone) ∧
      ((∃ kv ∈ req.Parameters, s.ToLower kv.1 = paramLocation) →
        ∃ kv ∈ req.Parameters, s.ToLower kv.1 = paramLocation ∧ newFiler.Location = kv.2) := by
  have hkey := lookup_none_of_no_key paramReservedIPV4CIDR req.Parameters hpool
  have hf := generateNewFileInstance_ok_fields s _ _ _ _ hgen
  rw [CreateVolume_no_pool s st req newFiler hname hcaps hgen e hget he hkey]
  refine ⟨fileInstanceToCSIVolume newFiler modeInstance, ?_, ?_, ?_, ?_, ?_⟩
  · simp [CreateVolume.create, hcreate]
  · have hN : newFiler.Name = req.Name := by rw [hf]
    have hV : newFiler.Volume.Name = newInstanceVolume := by rw [hf]
    simp only [fileInstanceToCSIVolume, getVolumeIDFromFileInstance_eq, hN, hV]
    exact new_volume_id_eq _ _
  · rw [hf]; rfl
  · intro hno
    rw [hf]
    exact foldl_last_value s.ToLower paramLocation req.Parameters _ _
      (fun kv hkv hk => absurd hk (hno kv hkv)) (Or.inl rfl)
  · rintro ⟨kv0, hmem0, hk0⟩
    rw [hf]
    rcases foldl_last_mem s.ToLower paramLocation req.Parameters s.GetZone with ⟨hno, _⟩ | hex
    · exact absurd hk0 (hno kv0 hmem0)
    · exact hex

/-- C12 (witness): the volume `vol-a` in zone `us-central1-a` gets the id
`modeInstance/us-central1-a/vol-a/vol1` and the floor as capacity. -/
theorem C12_new_volume_id_witness :
    (CreateVolume sampleConfig [] (sampleRequest [])).result =
      .ok { Volume := { Id := "modeInstance/us-central1-a/vol-a/vol1",
                        CapacityBytes := minVolumeSize,
                        Attributes := [("ip", ""), ("volume", "vol1")] } } ∧
    ∃ vol, (CreateVolume sampleConfig [] (sampleRequest [])).result = .ok { Volume := vol } ∧
      vol.Id = "modeInstance/" ++ sampleFiler.Location ++ "/" ++ "vol-a" ++ "/vol1" ∧
      vol.CapacityBytes = getRequestCapacity none ∧
      ((∀ kv ∈ ([] : List (String × String)), asciiToLower kv.1 ≠ paramLocation) →
        sampleFiler.Location = "us-central1-a") ∧
      ((∃ kv ∈ ([] : List (String × String)), asciiToLower kv.1 = paramLocation) →
        ∃ kv ∈ ([] : List (String × String)),
          asciiToLower kv.1 = paramLocation ∧ sampleFiler.Location = kv.2) :=
  ⟨by decide,
   C12_new_volume_id sampleConfig [] (sampleRequest []) sampleFiler none (by decide) rfl
     (by decide) (by simp [sampleRequest]) rfl (by simp) rfl⟩

/-! ## DeleteVolume of a well-formed identifier -/

/-- C13: for every volume id that decodes successfully, DeleteVolume issues exactly one call,
a `DeleteInstance` for the instance whose location, name and volume name are the decoded tokens
and whose project is the metadata project; it returns success if that call succeeds and an
`Internal` error if that call fails. -/
theorem C13_delete_decodable (s : controllerServerConfig Cap σ) (id : String)
    (filer : file.ServiceInstance) (mode : String)
    (hdec : getFileInstanceFromID id = .ok (filer, mode)) :
    strings.Split id '/' = [mode, filer.Location, filer.Name, filer.Volume.Name] ∧
    (DeleteVolume s { VolumeId := id }).2 =
      [Call.DeleteInstance
        { Project := s.GetProject, Location := filer.Location, Name := filer.Name,
          Volume := { Name := filer.Volume.Name } }] ∧
    (s.DeleteInstance
        { Project := s.GetProject, Location := filer.Location, Name := filer.Name,
          Volume := { Name := filer.Volume.Name } } = none →
      (DeleteVolume s { VolumeId := id }).1 = .ok {}) ∧
    (∀ err, s.DeleteInstance
        { Project := s.GetProject, Location := filer.Location, Name := filer.Name,
          Volume := { Name := filer.Volume.Name } } = some err →
      (DeleteVolume s { VolumeId := id }).1 = .error (status.Error Code.Internal err.msg)) := by
  have hne := getFileInstanceFromID_ne_empty id filer mode hdec
  obtain ⟨htok, hobj⟩ := getFileInstanceFromID_tokens_of_ok id filer mode hdec
  have hproj : ({ filer with Project := s.GetProject } : file.ServiceInstance) =
      { Project := s.GetProject, Location := filer.Location, Name := filer.Name,
        Volume := { Name := filer.Volume.Name } } := by
    rw [hobj]
  refine ⟨htok, ?_, ?_, ?_⟩
  · cases hdel : s.DeleteInstance { filer with Project := s.GetProject } <;>
      simp [DeleteVolume, hne, hdec, hdel, ← hproj]
  · intro hdel
    rw [← hproj] at hdel
    simp [DeleteVolume, hne, hdec, hdel]
  · intro err hdel
    rw [← hproj] at hdel
    simp [DeleteVolume, hne, hdec, hdel]
/-- C13 (witness): deleting `modeInstance/us-central1-a/vol-a/vol1` calls `DeleteInstance` once,
for the instance `vol-a` of project `test-project`, and succeeds; when the remote deletion fails
the result is an `Internal` error. -/
theorem C13_delete_decodable_witness :
    DeleteVolume sampleConfig { VolumeId := "modeInstance/us-central1-a/vol-a/vol1" } =
      (.ok {}, [Call.DeleteInstance
        { Project := "test-project", Location := "us-central1-a", Name := "vol-a",
          Volume := { Name := "vol1" } }]) ∧
    (DeleteVolume { sampleConfig with DeleteInstance := fun _ => some (fmt.Errorf "busy") }
        { VolumeId := "modeInstance/us-central1-a/vol-a/vol1" }).1 =
      .error (status.Error Code.Internal "busy") :=
  ⟨Prod.ext
    ((C13_delete_decodable sampleConfig "modeInstance/us-central1-a/vol-a/vol1"
      { Location := "us-central1-a", Name := "vol-a", Volume := { Name := "vol1" } }
      "modeInstance" (by decide)).2.2.1 rfl)
    (C13_delete_decodable sampleConfig "modeInstance/us-central1-a/vol-a/vol1"
      { Location := "us-central1-a", Name := "vol-a", Volume := { Name := "vol1" } }
      "modeInstance" (by decide)).2.1,
   (C13_delete_decodable { sampleConfig with DeleteInstance := fun _ => some (fmt.Errorf "busy") }
      "modeInstance/us-central1-a/vol-a/vol1"
      { Location := "us-central1-a", Name := "vol-a", Volume := { Name := "vol1" } }
      "modeInstance" (by decide)).2.2.2 (fmt.Errorf "busy") rfl⟩

/-! ## ValidateVolumeCapabilities -/

/-- A list that is not empty has a length other than 0. -/
theorem caps_length_ne_zero (caps : List Cap) (h : caps ≠ []) : ¬ (caps.length = 0) := by
  simpa [List.length_eq_zero] using h

/-- C14: a ValidateVolumeCapabilities request with an empty id or an empty capability list
fails with `InvalidArgument` before any lookup (no call is made); a request with a non-empty id
and a non-empty capability list fails with `NotFound` if the id fails to decode, and also if the
lookup `GetInstance` returns no instance, with no error or with a not-found error. -/
theorem C14_validate_unknown_volume (s : controllerServerConfig Cap σ)
    (req : csi.ValidateVolumeCapabilitiesRequest Cap) :
    (req.VolumeId = "" ∨ req.VolumeCapabilities = [] →
      ∃ msg, ValidateVolumeCapabilities s req =
        ((none, some (status.Error Code.InvalidArgument msg)), [])) ∧
    (req.VolumeId ≠ "" → req.VolumeCapabilities ≠ [] →
      ((∃ err, getFileInstanceFromID req.VolumeId = .error err) →
        ∃ msg, (ValidateVolumeCapabilities s req).1 =
          (none, some (status.Error Code.NotFound msg))) ∧
      (∀ filer mode e, getFileInstanceFromID req.VolumeId = .ok (filer, mode) →
        s.GetInstance { filer with Project := s.GetProject } = (none, e) →
        (∀ err, e = some err → s.IsNotFoundErr err = true) →
        ∃ msg, (ValidateVolumeCapabilities s req).1 =
          (none, some (status.Error Code.NotFound msg)))) := by
  constructor
  · intro h
    by_cases hid : req.VolumeId = ""
    · exact ⟨"volume id is empty", by simp [ValidateVolumeCapabilities, hid]⟩
    · have hc : req.VolumeCapabilities = [] := h.resolve_left hid
      exact ⟨"volume capabilities is empty", by simp [ValidateVolumeCapabilities, hid, hc]⟩
  · intro hid hc
    have hlen := caps_length_ne_zero _ hc
    constructor
    · rintro ⟨err, herr⟩
      exact ⟨err.msg, by simp [ValidateVolumeCapabilities, hid, hlen, herr]⟩
    · intro filer mode e hdec hget he
      have hfil := filter_none_of_notFound s e he
      exact ⟨"volume " ++ req.VolumeId ++ " doesn\x27t exist",
        by simp [ValidateVolumeCapabilities, hid, hlen, hdec, hget, hfil]⟩

/-- C14 (witness): the empty id is an `InvalidArgument`; the id `garbage` and the id of an
instance that does not exist are `NotFound`. -/
theorem C14_validate_unknown_volume_witness :
    (∃ msg, ValidateVolumeCapabilities sampleConfig { VolumeId := "", VolumeCapabilities := [()] } =
      ((none, some (status.Error Code.InvalidArgument msg)), [])) ∧
    (∃ msg, (ValidateVolumeCapabilities sampleConfig
        { VolumeId := "garbage", VolumeCapabilities := [()] }).1 =
      (none, some (status.Error Code.NotFound msg))) ∧
    (∃ msg, (ValidateVolumeCapabilities sampleConfig
        { VolumeId := "modeInstance/us-central1-a/vol-a/vol1", VolumeCapabilities := [()] }).1 =
      (none, some (status.Error Code.NotFound msg))) :=
  ⟨(C14_validate_unknown_volume sampleConfig
      { VolumeId := "", VolumeCapabilities := [()] }).1 (Or.inl rfl),
   ((C14_validate_unknown_volume sampleConfig
      { VolumeId := "garbage", VolumeCapabilities := [()] }).2 (by decide) (by decide)).1
      ⟨_, rfl⟩,
   ((C14_validate_unknown_volume sampleConfig
      { VolumeId := "modeInstance/us-central1-a/vol-a/vol1", VolumeCapabilities := [()] }).2
      (by decide) (by decide)).2
      { Location := "us-central1-a", Name := "vol-a", Volume := { Name := "vol1" } }
      "modeInstance" none (by decide) rfl (by simp)⟩

/-- C15: for every ValidateVolumeCapabilities request with a well-formed id of an existing
instance and a non-empty capability list, the call returns a response with `Supported = true`
and no error if and only if the capability check of the driver accepts the list; when the
check refuses the list, the call returns both a response with `Supported = false` that carries
the message of the check and an `InvalidArgument` error. -/
theorem C15_validate_dual_channel (s : controllerServerConfig Cap σ)
    (req : csi.ValidateVolumeCapabilitiesRequest Cap) (filer inst : file.ServiceInstance)
    (mode : String) (e : Option GoError)
    (hcaps : req.VolumeCapabilities ≠ [])
    (hdec : getFileInstanceFromID req.VolumeId = .ok (filer, mode))
    (hget : s.GetInstance { filer with Project := s.GetProject } = (some inst, e))
    (he : ∀ err, e = some err → s.IsNotFoundErr err = true) :
    ((∃ resp, (ValidateVolumeCapabilities s req).1 = (some resp, none) ∧ resp.Supported = true) ↔
      s.validateVolumeCapabilities req.VolumeCapabilities = none) ∧
    (s.validateVolumeCapabilities req.VolumeCapabilities = none →
      (ValidateVolumeCapabilities s req).1 = (some { Supported := true, Message := "" }, none)) ∧
    (∀ err, s.validateVolumeCapabilities req.VolumeCapabilities = some err →
      (ValidateVolumeCapabilities s req).1 =
        (some { Supported := false, Message := err.msg },
         some (status.Error Code.InvalidArgument err.msg))) := by
  have hid := getFileInstanceFromID_ne_empty _ _ _ hdec
  have hlen := caps_length_ne_zero _ hcaps
  have hfil := filter_none_of_notFound s e he
  cases hv : s.validateVolumeCapabilities req.VolumeCapabilities with
  | none => simp [ValidateVolumeCapabilities, hid, hlen, hdec, hget, hfil, hv]
  | some err => simp [ValidateVolumeCapabilities, hid, hlen, hdec, hget, hfil, hv]
/-- C15 (witness): for an existing instance, accepted capabilities give `Supported = true`
without an error, and refused ones give `Supported = false` together with `InvalidArgument`. -/
theorem C15_validate_dual_channel_witness :
    (ValidateVolumeCapabilities
        { sampleConfig with GetInstance := fun obj => (some obj, none) }
        { VolumeId := "modeInstance/us-central1-a/vol-a/vol1", VolumeCapabilities := [()] }).1 =
      (some { Supported := true, Message := "" }, none) ∧
    (ValidateVolumeCapabilities
        { sampleConfig with
          GetInstance := fun obj => (some obj, none),
          validateVolumeCapabilities := fun _ => some (fmt.Errorf "block is not supported") }
        { VolumeId := "modeInstance/us-central1-a/vol-a/vol1", VolumeCapabilities := [()] }).1 =
      (some { Supported := false, Message := "block is not supported" },
       some (status.Error Code.InvalidArgument "block is not supported")) :=
  ⟨(C15_validate_dual_channel
      { sampleConfig with GetInstance := fun obj => (some obj, none) }
      { VolumeId := "modeInstance/us-central1-a/vol-a/vol1", VolumeCapabilities := [()] }
      { Location := "us-central1-a", Name := "vol-a", Volume := { Name := "vol1" } }
      { Project := "test-project", Location := "us-central1-a", Name := "vol-a",
        Volume := { Name := "vol1" } }
      "modeInstance" none (by decide) (by decide) rfl (by simp)).2.1 rfl,
   (C15_validate_dual_channel
      { sampleConfig with
        GetInstance := fun obj => (some obj, none),
        validateVolumeCapabilities := fun _ => some (fmt.Errorf "block is not supported") }
      { VolumeId := "modeInstance/us-central1-a/vol-a/vol1", VolumeCapabilities := [()] }
      { Location := "us-central1-a", Name := "vol-a", Volume := { Name := "vol1" } }
      { Project := "test-project", Location := "us-central1-a", Name := "vol-a",
        Volume := { Name := "vol1" } }
      "modeInstance" none (by decide) (by decide) rfl (by simp)).2.2
      (fmt.Errorf "block is not supported") rfl⟩

/-! ## CreateVolume: release of the tentative reservation -/

/-- C17: for every CreateVolume call in which the allocator was asked for a block and returned
block `b`, `ReleaseIPRange` is called exactly once during the call, with argument `b`, whether
`CreateInstance` then succeeds or fails.  So when the tentative set of the allocator is explicit
state (`pending st y` says that `y` is in the set in state `st`; the allocation added `b`, a
release removes its argument), `b` is absent from the set when CreateVolume returns, and
whatever is in the set then was in it before the call. -/
theorem C17_guaranteed_release (s : controllerServerConfig Cap σ) (st : σ)
    (req : csi.CreateVolumeRequest Cap) (cidr : String) (reserved : List String)
    (b : String) (st1 : σ)
    (hcall : Call.GetUnreservedIPRange cidr reserved ∈ (CreateVolume s st req).calls)
    (halloc : s.GetUnreservedIPRange st cidr reserved = (.ok b, st1))
    (pending : σ → String → Prop)
    (hadd : ∀ y, pending st1 y ↔ (y = b ∨ pending st y))
    (hrel : ∀ st0 x y, pending (s.ReleaseIPRange st0 x) y ↔ (pending st0 y ∧ y ≠ x)) :
    (CreateVolume s st req).calls.count (Call.ReleaseIPRange b) = 1 ∧
    (∀ r, Call.ReleaseIPRange r ∈ (CreateVolume s st req).calls → r = b) ∧
    (CreateVolume s st req).alloc = s.ReleaseIPRange st1 b ∧
    ¬ pending (CreateVolume s st req).alloc b ∧
    (∀ y, pending (CreateVolume s st req).alloc y → pending st y) := by
  by_cases hname : req.Name = ""
  · simp [CreateVolume, hname] at hcall
  have hlen := name_length_ne_zero _ hname
  cases hcaps : s.validateVolumeCapabilities req.VolumeCapabilities with
  | some err => simp [CreateVolume, hlen, hcaps] at hcall
  | none =>
  cases hgen : generateNewFileInstance s req.Name (getRequestCapacity req.CapacityRange)
      req.Parameters with
  | error err => simp [CreateVolume, hlen, hcaps, hgen] at hcall
  | ok newFiler =>
  rcases hget : s.GetInstance newFiler with ⟨filer, e⟩
  by_cases hfatal : ∃ err, e = some err ∧ s.IsNotFoundErr err = false
  · obtain ⟨err0, rfl, hnf⟩ := hfatal
    rw [CreateVolume_lookup_failed s st req newFiler hname hcaps hgen filer err0 hget hnf] at hcall
    simp at hcall
  have he : ∀ err, e = some err → s.IsNotFoundErr err = true := by
    intro err herr
    by_contra hc
    exact hfatal ⟨err, herr, by simpa using hc⟩
  cases filer with
  | some filer =>
    rw [CreateVolume_existing s st req newFiler hname hcaps hgen filer e hget he] at hcall
    simp at hcall
  | none =>
  cases hkey : req.Parameters.lookup paramReservedIPV4CIDR with
  | none =>
    rw [CreateVolume_no_pool s st req newFiler hname hcaps hgen e hget he hkey] at hcall
    simp [CreateVolume.create_calls] at hcall
  | some cidr0 =>
  cases hlist : s.ListInstances newFiler with
  | error lerr =>
    rw [CreateVolume_list_failed s st req newFiler hname hcaps hgen e cidr0 lerr hget he
      hkey hlist] at hcall
    simp at hcall
  | ok instances =>
  rcases halloc0 : s.GetUnreservedIPRange st cidr0
    (instances.foldl (fun m inst => List.insert inst.Network.ReservedIpRange m) [])
    with ⟨r, st2⟩
  cases r with
  | error aerr =>
    rw [CreateVolume_alloc_failed s st req newFiler hname hcaps hgen e cidr0 aerr instances
      st2 hget he hkey hlist halloc0] at hcall
    simp only [List.mem_cons, List.mem_singleton, Call.GetUnreservedIPRange.injEq,
      List.not_mem_nil, or_false, false_or, reduceCtorEq] at hcall
    obtain ⟨rfl, rfl⟩ := hcall
    rw [halloc0] at halloc
    simp at halloc
  | ok block =>
    rw [CreateVolume_alloc_ok s st req newFiler hname hcaps hgen e cidr0 block instances
      st2 hget he hkey hlist halloc0] at hcall ⊢
    simp only [CreateVolume.create_calls, List.cons_append, List.nil_append, List.mem_cons,
      List.mem_singleton, Call.GetUnreservedIPRange.injEq, List.not_mem_nil, or_false,
      false_or, reduceCtorEq] at hcall
    obtain ⟨rfl, rfl⟩ := hcall
    rw [halloc0] at halloc
    simp only [Prod.mk.injEq, Except.ok.injEq] at halloc
    obtain ⟨rfl, rfl⟩ := halloc
    refine ⟨?_, ?_, rfl, ?_, ?_⟩
    · simp [CreateVolume.create_calls, List.count_cons]
    · simp [CreateVolume.create_calls]
    · show ¬ pending (s.ReleaseIPRange _ _) _
      rw [hrel]
      simp
    · intro y hy
      change pending (s.ReleaseIPRange _ _) y at hy
      rw [hrel, hadd] at hy
      rcases hy with ⟨hy | hy, hne⟩
      · exact absurd hy hne
      · exact hy

/-- C17 (witness): with an allocator that holds a list of blocks, a request with the pool
`192.168.92.0/26` gets the block `192.168.92.32/29`, releases it once, and leaves the list
empty, both when `CreateInstance` succeeds and when it fails. -/
theorem C17_guaranteed_release_witness :
    ((CreateVolume
        { sampleConfig with ReleaseIPRange := fun st ipRange => st.filter (fun y => y != ipRange) }
        [] (sampleRequest [("reserved-ipv4-cidr", "192.168.92.0/26")])).calls.count
        (Call.ReleaseIPRange "192.168.92.32/29") = 1 ∧
      (CreateVolume
        { sampleConfig with ReleaseIPRange := fun st ipRange => st.filter (fun y => y != ipRange) }
        [] (sampleRequest [("reserved-ipv4-cidr", "192.168.92.0/26")])).alloc = []) ∧
    ((CreateVolume
        { sampleConfig with
          ReleaseIPRange := fun st ipRange => st.filter (fun y => y != ipRange),
          CreateInstance := fun _ => .error (fmt.Errorf "create failed") }
        [] (sampleRequest [("reserved-ipv4-cidr", "192.168.92.0/26")])).calls.count
        (Call.ReleaseIPRange "192.168.92.32/29") = 1 ∧
      (CreateVolume
        { sampleConfig with
          ReleaseIPRange := fun st ipRange => st.filter (fun y => y != ipRange),
          CreateInstance := fun _ => .error (fmt.Errorf "create failed") }
        [] (sampleRequest [("reserved-ipv4-cidr", "192.168.92.0/26")])).alloc = []) :=
  have h1 := C17_guaranteed_release
    { sampleConfig with ReleaseIPRange := fun st ipRange => st.filter (fun y => y != ipRange) }
    [] (sampleRequest [("reserved-ipv4-cidr", "192.168.92.0/26")]) "192.168.92.0/26" []
    "192.168.92.32/29" ["192.168.92.32/29"] (by decide) rfl (fun st y => y ∈ st)
    (by simp) (by simp [List.mem_filter])
  have h2 := C17_guaranteed_release
    { sampleConfig with
      ReleaseIPRange := fun st ipRange => st.filter (fun y => y != ipRange),
      CreateInstance := fun _ => .error (fmt.Errorf "create failed") }
    [] (sampleRequest [("reserved-ipv4-cidr", "192.168.92.0/26")]) "192.168.92.0/26" []
    "192.168.92.32/29" ["192.168.92.32/29"] (by decide) rfl (fun st y => y ∈ st)
    (by simp) (by simp [List.mem_filter])
  ⟨⟨h1.1, h1.2.2.1.trans (by decide)⟩, ⟨h2.1, h2.2.2.1.trans (by decide)⟩⟩

/-! ## Order independence of the parameter handling -/

/-- When no two entries have the same lower-cased key, the last value given to a key is the same
in every visiting order. -/
theorem foldl_last_perm (low : String → String) (key : String)
    (ps qs : List (String × String)) (cur : String) (hperm : ps.Perm qs)
    (hnd : (ps.map (fun kv => low kv.1)).Nodup) :
    ps.foldl (fun cur kv => if low kv.1 = key then kv.2 else cur) cur =
      qs.foldl (fun cur kv => if low kv.1 = key then kv.2 else cur) cur := by
  rcases foldl_last_mem low key ps cur with ⟨hno, heq⟩ | ⟨kv, hmem, hk, heq⟩
  · rw [heq]
    exact (foldl_last_value low key qs cur cur
      (fun kv1 hkv1 hk1 => absurd hk1 (hno kv1 (hperm.mem_iff.2 hkv1))) (Or.inl rfl)).symm
  · rw [heq]
    refine (foldl_last_value low key qs cur kv.2 ?_ (Or.inr ⟨kv, hperm.mem_iff.1 hmem, hk⟩)).symm
    intro kv1 hkv1 hk1
    have hkv1m : kv1 ∈ ps := hperm.mem_iff.2 hkv1
    have hsame : kv1 = kv :=
      List.inj_on_of_nodup_map hnd hkv1m hmem (hk1.trans hk.symm)
    rw [hsame]

/-- C20: for every parameter map, visited in the order `params` or in any other order `visited`
of the same entries, `generateNewFileInstance` fails in the one order exactly when it fails in
the other; and when the keys are pairwise distinct after lower-casing, the instance it returns
(tier, network, location, name, size and the rest) is the same in both orders. -/
theorem C20_order_independence (s : controllerServerConfig Cap σ) (name : String)
    (capBytes : Int) (params visited : List (String × String)) (hperm : params.Perm visited) :
    ((∃ err, generateNewFileInstance s name capBytes params = .error err) ↔
      ∃ err, generateNewFileInstance s name capBytes visited = .error err) ∧
    ((params.map (fun kv => s.ToLower kv.1)).Nodup →
      ∀ inst, generateNewFileInstance s name capBytes params = .ok inst →
        generateNewFileInstance s name capBytes visited = .ok inst) := by
  have hiff : (∃ err, generateNewFileInstance s name capBytes params = .error err) ↔
      ∃ err, generateNewFileInstance s name capBytes visited = .error err := by
    rw [generateNewFileInstance_error_iff, generateNewFileInstance_error_iff]
    constructor
    · rintro ⟨kv, hmem, hk⟩
      exact ⟨kv, hperm.mem_iff.1 hmem, hk⟩
    · rintro ⟨kv, hmem, hk⟩
      exact ⟨kv, hperm.mem_iff.2 hmem, hk⟩
  refine ⟨hiff, ?_⟩
  intro hnd inst hok
  cases hv : generateNewFileInstance s name capBytes visited with
  | error err =>
    obtain ⟨err0, herr0⟩ := hiff.2 ⟨err, hv⟩
    rw [hok] at herr0
    simp at herr0
  | ok inst1 =>
    have h1 := generateNewFileInstance_ok_fields s name capBytes params inst hok
    have h2 := generateNewFileInstance_ok_fields s name capBytes visited inst1 hv
    rw [h1, h2, foldl_last_perm s.ToLower paramLocation params visited _ hperm hnd,
      foldl_last_perm s.ToLower paramTier params visited _ hperm hnd,
      foldl_last_perm s.ToLower paramNetwork params visited _ hperm hnd]

/-- C20 (witness): the map with `Tier = premium`, `location = us-east1-b` and
`network = vpc-1` gives the same instance when its entries are visited in the reverse order. -/
theorem C20_order_independence_witness :
    generateNewFileInstance sampleConfig "vol-a" minVolumeSize
        [("network", "vpc-1"), ("location", "us-east1-b"), ("Tier", "premium")] =
      .ok { Project := "test-project", Name := "vol-a", Location := "us-east1-b",
            Tier := "premium", Network := { Name := "vpc-1" },
            Volume := { Name := "vol1", SizeBytes := minVolumeSize } } :=
  (C20_order_independence sampleConfig "vol-a" minVolumeSize
    [("Tier", "premium"), ("location", "us-east1-b"), ("network", "vpc-1")]
    [("network", "vpc-1"), ("location", "us-east1-b"), ("Tier", "premium")]
    (List.reverse_perm
      [("network", "vpc-1"), ("location", "us-east1-b"), ("Tier", "premium")])).2
    (by decide)
    { Project := "test-project", Name := "vol-a", Location := "us-east1-b",
      Tier := "premium", Network := { Name := "vpc-1" },
      Volume := { Name := "vol1", SizeBytes := minVolumeSize } }
    (by decide)

end driver
